import Mathlib

/-!
# Verification of the simian-forge telemetry generator core

This file is a shallow embedding, in Lean 4, of the core of the
simian-forge synthetic-telemetry generator: the string hash and seeded
pseudo-random generator (`src/utils/hash.ts`), the overflow-safe counter
ledgers of the host metrics generator (`src/simulators/metrics-generator.ts`)
and of the weather metrics generator
(`src/simulators/histograms-metrics-generator.ts`), the deterministic host
configuration derivation (`src/simulators/host-generator.ts` with the static
machine tables of `src/types/machine-types.ts`), the per-tick metrics
synthesis (`src/simulators/metrics-generator.ts`), the load sections of the
two active format renderers (`src/formatters/elastic-formatter.ts`,
`src/formatters/otel-formatter.ts`), the image-selection helpers of
`src/formatters/base-formatter.ts`, the transform stage
(`src/streams/metrics-transform-stream.ts`) and the backfill producer
(`src/streams/backfill-stream.ts`).

Modelling conventions:

* JavaScript `number` values are modelled as exact rationals (`ℚ`).  All
  quantities the theorems below inspect are produced by additions,
  multiplications, divisions and `Math.floor` applied to dyadic rationals,
  so the idealisation agrees with IEEE-754 double arithmetic except for
  final-bit rounding on a few products and quotients; no theorem below
  depends on such a final bit.
* `Math.sin` is not algebraic; it is modelled by an arbitrary function
  parameter `jsSin : ℚ → ℚ`.  Concrete evaluations only ever apply `jsSin`
  at argument `0`, where IEEE-754 (and hence JavaScript) guarantees
  `Math.sin 0 = 0`, so instantiating `jsSin` with the constant-zero
  function is exact on every evaluated path.  `Math.PI` is modelled by the
  exact rational value of the double-precision constant.
* `Date` values are epoch milliseconds (`ℕ`); `Date.prototype.getHours` is
  modelled for a UTC-configured host (the shipped container sets no other
  timezone).
* JavaScript objects used as string-keyed records are modelled as
  association lists updated in place, preserving insertion order.
* Mutable class state (`MetricsGenerator.counters`, `previousMetrics`,
  `HostGenerator.hostConfigs`) is threaded explicitly.
-/

/-! ## JavaScript primitives -/

/-- Wrap an integer to the signed 32-bit range, as JavaScript's `| 0`,
`&`, and `<<` coercions do (`ToInt32`). -/
def toInt32 (x : ℤ) : ℤ := (x + 2 ^ 31) % 2 ^ 32 - 2 ^ 31

/-- One step of the string hash of `hashString` (`src/utils/hash.ts`):
`hash = ((hash << 5) - hash) + char; hash = hash & hash`. -/
def hashStep (h : ℤ) (c : ℕ) : ℤ := toInt32 (toInt32 (h * 32) - h + c)

/-- The signed 32-bit accumulator of `hashString` after folding the whole
string (UTF-16 code units; every string hashed by the program is ASCII). -/
def hashStringRaw (s : String) : ℤ := s.data.foldl (fun h c => hashStep h c.toNat) 0

/-- `hashString` (`src/utils/hash.ts`): the absolute value of the folded
32-bit hash, a non-negative integer. -/
def hashString (s : String) : ℕ := (hashStringRaw s).natAbs

/-- The linear-congruential state update of `seededRandom`
(`src/utils/hash.ts`): `state = (state * 1664525 + 1013904223) % 4294967296`. -/
def lcgNext (s : ℕ) : ℕ := (s * 1664525 + 1013904223) % 4294967296

/-- One call of the closure returned by `seededRandom`: advance the state
and return `state / 4294967296`. -/
def randStep (s : ℕ) : ℚ × ℕ :=
  let s' := lcgNext s
  ((s' : ℚ) / 4294967296, s')

/-- `n` iterations of the LCG state update. -/
def lcgIter (n s : ℕ) : ℕ := Nat.iterate lcgNext n s

/-- The `n`-th (0-based) value returned by a `seededRandom` generator whose
initial state is `seed`. -/
def randStream (seed : ℕ) (n : ℕ) : ℚ := ((lcgIter (n + 1) seed : ℕ) : ℚ) / 4294967296

/-- `Number.MAX_SAFE_INTEGER = 2^53 - 1`. -/
def maxSafeInteger : ℚ := 9007199254740991

/-- `Math.floor` on the rational model of a JavaScript number. -/
def jsFloor (q : ℚ) : ℚ := (⌊q⌋ : ℚ)

/-! ## Counter ledgers -/

/-- `MetricsGenerator.incrementCounter`
(`src/simulators/metrics-generator.ts`, lines 362–366):
`newValue = current + increment`; if it exceeds `MAX_SAFE_INTEGER` the
counter resets to the increment itself, otherwise it stores
`Math.floor(newValue)`. -/
def incrementCounter (current increment : ℚ) : ℚ :=
  let newValue := current + increment
  if maxSafeInteger < newValue then increment else jsFloor newValue

/-- A `CounterState` (string-keyed record of cumulative values), modelled
as an insertion-ordered association list. -/
abbrev CounterState := List (String × ℚ)

/-- Record read `counters[key] || 0`. -/
def getCounter (cs : CounterState) (k : String) : ℚ :=
  match cs.find? (fun p => p.1 = k) with
  | some p => p.2
  | none => 0

/-- Record write `counters[key] = v` (update in place, insert at the end
otherwise, as JavaScript objects do). -/
def setCounter : CounterState → String → ℚ → CounterState
  | [], k, v => [(k, v)]
  | (k', v') :: rest, k, v =>
    if k' = k then (k, v) :: rest else (k', v') :: setCounter rest k v

/-- Successive stored values of a host counter ledger under a sequence of
increments, starting from stored value `c`
(each step is `MetricsGenerator.incrementCounter`). -/
def runLedger : ℚ → List ℚ → List ℚ
  | _, [] => []
  | c, d :: ds =>
    let c' := incrementCounter c d
    c' :: runLedger c' ds

/-- `WeatherMetricsGenerator.incrementCounter`
(`src/simulators/histograms-metrics-generator.ts`, lines 356–365), stored
value only: missing keys start at `0`, the increment is added, and a value
exceeding `MAX_SAFE_INTEGER` is reset to `0`. -/
def weatherIncrementValue (current increment : ℚ) : ℚ :=
  let v := current + increment
  if maxSafeInteger < v then 0 else v

/-- `WeatherMetricsGenerator.incrementCounter` acting on the counters
record. -/
def weatherIncrementCounter (counters : CounterState) (key : String) (increment : ℚ) :
    CounterState :=
  setCounter counters key (weatherIncrementValue (getCounter counters key) increment)

/-! ## Machine specification tables (`src/types/machine-types.ts`) -/

/-- A `MachineSpec` entry of the static capacity tables. -/
structure MachineSpec where
  vcpus : ℕ
  physicalCores : ℕ
  memoryGB : ℚ
  networkPerformance : String
  ebsOptimized : Bool
deriving DecidableEq, Repr

/-- `AWS_MACHINE_TYPES`. -/
def awsMachineTypes : String → Option MachineSpec
  | "t3.nano" => some ⟨2, 1, 1/2, "Up to 5 Gbps", true⟩
  | "t3.micro" => some ⟨2, 1, 1, "Up to 5 Gbps", true⟩
  | "t3.small" => some ⟨2, 1, 2, "Up to 5 Gbps", true⟩
  | "t3.medium" => some ⟨2, 1, 4, "Up to 5 Gbps", true⟩
  | "t3.large" => some ⟨2, 1, 8, "Up to 5 Gbps", true⟩
  | "t3.xlarge" => some ⟨4, 2, 16, "Up to 5 Gbps", true⟩
  | "t3.2xlarge" => some ⟨8, 4, 32, "Up to 5 Gbps", true⟩
  | "m5.large" => some ⟨2, 1, 8, "Up to 10 Gbps", true⟩
  | "m5.xlarge" => some ⟨4, 2, 16, "Up to 10 Gbps", true⟩
  | "m5.2xlarge" => some ⟨8, 4, 32, "Up to 10 Gbps", true⟩
  | "m5.4xlarge" => some ⟨16, 8, 64, "Up to 10 Gbps", true⟩
  | "m5.8xlarge" => some ⟨32, 16, 128, "10 Gbps", true⟩
  | "m5.12xlarge" => some ⟨48, 24, 192, "12 Gbps", true⟩
  | "m5.16xlarge" => some ⟨64, 32, 256, "20 Gbps", true⟩
  | "m5.24xlarge" => some ⟨96, 48, 384, "25 Gbps", true⟩
  | "c5.large" => some ⟨2, 1, 4, "Up to 10 Gbps", true⟩
  | "c5.xlarge" => some ⟨4, 2, 8, "Up to 10 Gbps", true⟩
  | "c5.2xlarge" => some ⟨8, 4, 16, "Up to 10 Gbps", true⟩
  | "c5.4xlarge" => some ⟨16, 8, 32, "Up to 10 Gbps", true⟩
  | "c5.9xlarge" => some ⟨36, 18, 72, "10 Gbps", true⟩
  | "c5.12xlarge" => some ⟨48, 24, 96, "12 Gbps", true⟩
  | "c5.18xlarge" => some ⟨72, 36, 144, "25 Gbps", true⟩
  | "c5.24xlarge" => some ⟨96, 48, 192, "25 Gbps", true⟩
  | "r5.large" => some ⟨2, 1, 16, "Up to 10 Gbps", true⟩
  | "r5.xlarge" => some ⟨4, 2, 32, "Up to 10 Gbps", true⟩
  | "r5.2xlarge" => some ⟨8, 4, 64, "Up to 10 Gbps", true⟩
  | "r5.4xlarge" => some ⟨16, 8, 128, "Up to 10 Gbps", true⟩
  | "r5.8xlarge" => some ⟨32, 16, 256, "10 Gbps", true⟩
  | "r5.12xlarge" => some ⟨48, 24, 384, "12 Gbps", true⟩
  | "r5.16xlarge" => some ⟨64, 32, 512, "20 Gbps", true⟩
  | "r5.24xlarge" => some ⟨96, 48, 768, "25 Gbps", true⟩
  | _ => none

/-- `GCP_MACHINE_TYPES`. -/
def gcpMachineTypes : String → Option MachineSpec
  | "e2-micro" => some ⟨1, 1, 1, "1 Gbps", false⟩
  | "e2-small" => some ⟨1, 1, 2, "1 Gbps", false⟩
  | "e2-medium" => some ⟨1, 1, 4, "2 Gbps", false⟩
  | "e2-standard-2" => some ⟨2, 1, 8, "4 Gbps", false⟩
  | "e2-standard-4" => some ⟨4, 2, 16, "8 Gbps", false⟩
  | "e2-standard-8" => some ⟨8, 4, 32, "16 Gbps", false⟩
  | "e2-standard-16" => some ⟨16, 8, 64, "32 Gbps", false⟩
  | "n1-standard-1" => some ⟨1, 1, 15/4, "2 Gbps", false⟩
  | "n1-standard-2" => some ⟨2, 1, 15/2, "4 Gbps", false⟩
  | "n1-standard-4" => some ⟨4, 2, 15, "8 Gbps", false⟩
  | "n1-standard-8" => some ⟨8, 4, 30, "16 Gbps", false⟩
  | "n1-standard-16" => some ⟨16, 8, 60, "32 Gbps", false⟩
  | "n1-standard-32" => some ⟨32, 16, 120, "32 Gbps", false⟩
  | "n1-standard-64" => some ⟨64, 32, 240, "32 Gbps", false⟩
  | "n1-standard-96" => some ⟨96, 48, 360, "32 Gbps", false⟩
  | _ => none

/-- `AZURE_MACHINE_TYPES`. -/
def azureMachineTypes : String → Option MachineSpec
  | "Standard_B1s" => some ⟨1, 1, 1, "1 Gbps", false⟩
  | "Standard_B1ms" => some ⟨1, 1, 2, "1 Gbps", false⟩
  | "Standard_B2s" => some ⟨2, 1, 4, "2 Gbps", false⟩
  | "Standard_B2ms" => some ⟨2, 1, 8, "3 Gbps", false⟩
  | "Standard_B4ms" => some ⟨4, 2, 16, "4 Gbps", false⟩
  | "Standard_B8ms" => some ⟨8, 4, 32, "6 Gbps", false⟩
  | "Standard_D2s_v3" => some ⟨2, 1, 8, "4 Gbps", true⟩
  | "Standard_D4s_v3" => some ⟨4, 2, 16, "8 Gbps", true⟩
  | "Standard_D8s_v3" => some ⟨8, 4, 32, "16 Gbps", true⟩
  | "Standard_D16s_v3" => some ⟨16, 8, 64, "32 Gbps", true⟩
  | "Standard_D32s_v3" => some ⟨32, 16, 128, "32 Gbps", true⟩
  | "Standard_D64s_v3" => some ⟨64, 32, 256, "32 Gbps", true⟩
  | _ => none

instance : Inhabited MachineSpec := ⟨⟨0, 0, 0, "", false⟩⟩

/-- `getMachineSpec` (`src/types/machine-types.ts`): table lookup with a
fixed fallback entry per provider. -/
def getMachineSpec (provider instanceType : String) : MachineSpec :=
  if provider = "aws" then
    (awsMachineTypes instanceType).getD ((awsMachineTypes "m5.large").getD default)
  else if provider = "gcp" then
    (gcpMachineTypes instanceType).getD ((gcpMachineTypes "e2-standard-2").getD default)
  else if provider = "azure" then
    (azureMachineTypes instanceType).getD ((azureMachineTypes "Standard_D2s_v3").getD default)
  else (awsMachineTypes "m5.large").getD default

/-! ## Host configuration (`src/simulators/host-generator.ts`)

The `HostConfig`, `CloudConfig`, `NetworkInterface` and `DiskConfig` record
shapes are those constructed by `HostGenerator.generateHost` and consumed
by `MetricsGenerator` and the formatters (the `host-types` declaration file
only restates these shapes). -/

/-- `CloudConfig`. -/
structure CloudConfig where
  provider : String
  region : String
  availabilityZone : String
  instanceId : String
  instanceType : String
deriving DecidableEq, Repr

/-- `NetworkInterface`. -/
structure NetworkInterface where
  name : String
  type : String
  mtu : ℕ
deriving DecidableEq, Repr

/-- `DiskConfig`. -/
structure DiskConfig where
  device : String
  filesystem : String
  mountpoint : String
  totalBytes : ℚ
deriving DecidableEq, Repr

/-- `HostConfig`. -/
structure HostConfig where
  name : String
  machineType : String
  vcpus : ℕ
  physicalCores : ℕ
  memoryGB : ℚ
  cloud : CloudConfig
  networkInterfaces : List NetworkInterface
  disks : List DiskConfig
deriving DecidableEq, Repr

/-- `AWS_REGIONS`. -/
def awsRegions : List String :=
  ["us-east-1", "us-east-2", "us-west-1", "us-west-2",
   "eu-west-1", "eu-west-2", "eu-central-1", "ap-southeast-1"]

/-- `GCP_REGIONS`. -/
def gcpRegions : List String :=
  ["us-central1", "us-east1", "us-west1", "us-west2",
   "europe-west1", "europe-west2", "europe-west3", "asia-southeast1"]

/-- `AZURE_REGIONS`. -/
def azureRegions : List String :=
  ["eastus", "eastus2", "westus", "westus2",
   "westeurope", "northeurope", "centralus", "southeastasia"]

/-- `AWS_INSTANCE_TYPES`. -/
def awsInstanceTypes : List String :=
  ["t3.micro", "t3.small", "t3.medium", "t3.large", "t3.xlarge",
   "m5.large", "m5.xlarge", "m5.2xlarge", "m5.4xlarge",
   "c5.large", "c5.xlarge", "c5.2xlarge", "c5.4xlarge",
   "r5.large", "r5.xlarge", "r5.2xlarge", "r5.4xlarge"]

/-- `GCP_INSTANCE_TYPES`. -/
def gcpInstanceTypes : List String :=
  ["e2-micro", "e2-small", "e2-medium", "e2-standard-2", "e2-standard-4",
   "n1-standard-1", "n1-standard-2", "n1-standard-4", "n1-standard-8"]

/-- `AZURE_INSTANCE_TYPES`. -/
def azureInstanceTypes : List String :=
  ["Standard_B1s", "Standard_B1ms", "Standard_B2s", "Standard_B2ms",
   "Standard_D2s_v3", "Standard_D4s_v3", "Standard_D8s_v3"]

/-- A JavaScript array access `arr[Math.floor(r * arr.length)]` with
`0 ≤ r < 1`, as used by every categorical draw. -/
def pickAt (l : List String) (r : ℚ) : String :=
  l.getD (⌊r * l.length⌋.toNat) ""

/-- `HostGenerator.randomHex`: build a hex string of the given length one
seeded draw per character. -/
def randomHex : ℕ → ℕ → String × ℕ
  | 0, s => ("", s)
  | n + 1, s =>
    let (r, s1) := randStep s
    let c := "0123456789abcdef".data.getD (⌊r * 16⌋.toNat) 'f'
    let (rest, s2) := randomHex n s1
    (String.mk (c :: rest.data), s2)

/-- `HostGenerator.generateInstanceId`. -/
def generateInstanceId (provider : String) (s : ℕ) : String × ℕ :=
  if provider = "aws" then
    let (h, s1) := randomHex 17 s
    ("i-" ++ h, s1)
  else if provider = "gcp" then
    let (r, s1) := randStep s
    (toString ((⌊r * 9000000000000000000⌋).toNat + 1000000000000000000), s1)
  else if provider = "azure" then
    let (h1, s1) := randomHex 8 s
    let (h2, s2) := randomHex 4 s1
    let (h3, s3) := randomHex 4 s2
    let (h4, s4) := randomHex 4 s3
    let (h5, s5) := randomHex 12 s4
    (h1 ++ "-" ++ h2 ++ "-" ++ h3 ++ "-" ++ h4 ++ "-" ++ h5, s5)
  else
    let (h, s1) := randomHex 17 s
    ("i-" ++ h, s1)

/-- `HostGenerator.generateDiskSize`: a size between 8 GB and 100 GB biased
by the machine's memory, in bytes. -/
def generateDiskSize (memoryGB : ℚ) (s : ℕ) : ℚ × ℕ :=
  let minSizeGB : ℚ := 8
  let baseSizeGB := max 20 (memoryGB * 2)
  let maxSizeGB := min 100 (baseSizeGB * 2)
  let (r, s1) := randStep s
  let sizeGB := minSizeGB + ((⌊r * (maxSizeGB - minSizeGB)⌋ : ℤ) : ℚ)
  (sizeGB * 1024 * 1024 * 1024, s1)

/-- `HostGenerator.generateHost`, cache miss path: derive the whole
configuration from a generator seeded with the host name, making the
categorical and numeric draws in the source's fixed order. -/
def generateHostPure (hostName : String) : HostConfig :=
  let s0 := hashString hostName
  let (r1, s1) := randStep s0
  let provider := pickAt ["aws", "gcp", "azure"] r1
  let regions :=
    if provider = "aws" then awsRegions
    else if provider = "gcp" then gcpRegions
    else azureRegions
  let instanceTypes :=
    if provider = "aws" then awsInstanceTypes
    else if provider = "gcp" then gcpInstanceTypes
    else azureInstanceTypes
  let (r2, s2) := randStep s1
  let region := pickAt regions r2
  let (r3, s3) := randStep s2
  let instanceType := pickAt instanceTypes r3
  let machineSpec := getMachineSpec provider instanceType
  let (r4, s4) := randStep s3
  let azSuffix := pickAt ["a", "b", "c"] r4
  let availabilityZone := region ++ azSuffix
  let (instanceId, s5) := generateInstanceId provider s4
  let (diskSize, _) := generateDiskSize machineSpec.memoryGB s5
  { name := hostName
    machineType := instanceType
    vcpus := machineSpec.vcpus
    physicalCores := machineSpec.physicalCores
    memoryGB := machineSpec.memoryGB
    cloud :=
      { provider := provider
        region := region
        availabilityZone := availabilityZone
        instanceId := instanceId
        instanceType := instanceType }
    networkInterfaces :=
      [{ name := "eth0", type := "ethernet", mtu := 1500 },
       { name := "lo", type := "loopback", mtu := 65536 }]
    disks :=
      [{ device := "/dev/xvda1", filesystem := "ext4", mountpoint := "/",
         totalBytes := diskSize },
       { device := "tmpfs", filesystem := "tmpfs", mountpoint := "/tmp",
         totalBytes := jsFloor (machineSpec.memoryGB * 1024 * 1024 * 1024 * (1/10)) }] }

/-- `HostGenerator.generateHost` with its `hostConfigs` cache threaded
explicitly: a hit returns the cached object, a miss derives and caches. -/
def generateHostCached (cache : List (String × HostConfig)) (hostName : String) :
    HostConfig × List (String × HostConfig) :=
  match cache.find? (fun p => p.1 = hostName) with
  | some p => (p.2, cache)
  | none =>
    let cfg := generateHostPure hostName
    (cfg, (hostName, cfg) :: cache)

/-! ## Per-tick metrics synthesis (`src/simulators/metrics-generator.ts`) -/

/-- `Math.PI`, the double-precision constant, as an exact rational. -/
def jsPi : ℚ := 884279719003555 / 281474976710656

/-- `Date.prototype.getHours` for an epoch-millisecond timestamp on a
UTC-configured host. -/
def jsGetHours (t : ℕ) : ℕ := t / 3600000 % 24

/-- `MetricsGenerator.getTimeBasedLoad`: the diurnal business-hours load
curve.  `jsSin` models `Math.sin`. -/
def getTimeBasedLoad (jsSin : ℚ → ℚ) (hour : ℕ) : ℚ :=
  if 9 ≤ hour ∧ hour ≤ 17 then
    60 + jsSin (((hour : ℚ) - 9) / 8 * jsPi) * 20
  else if 18 ≤ hour ∧ hour ≤ 22 then
    40 + jsSin (((hour : ℚ) - 18) / 4 * jsPi) * 15
  else
    15 + jsSin ((hour : ℚ) / 24 * jsPi * 2) * 10

/-- One per-core CPU usage record (the object literal built in
`generateCpuMetrics`). -/
structure CoreUsage where
  core : ℕ
  user : ℚ
  nice : ℚ
  system : ℚ
  idle : ℚ
  wait : ℚ
  interrupt : ℚ
  softirq : ℚ
  steal : ℚ
deriving DecidableEq, Repr

instance : Inhabited CoreUsage := ⟨⟨0, 0, 0, 0, 0, 0, 0, 0, 0⟩⟩

/-- The aggregate CPU state record (`usage` / `totalAggregateUsage`). -/
structure CpuStates where
  user : ℚ
  nice : ℚ
  system : ℚ
  idle : ℚ
  wait : ℚ
  interrupt : ℚ
  softirq : ℚ
  steal : ℚ
deriving DecidableEq, Repr

/-- `CpuMetrics`. -/
structure CpuMetrics where
  usage : CpuStates
  perCoreUsage : List CoreUsage
  count : ℕ
deriving DecidableEq, Repr

/-- `LoadMetrics`. -/
structure LoadMetrics where
  load1m : ℚ
  load5m : ℚ
  load15m : ℚ
deriving DecidableEq, Repr

/-- `MemoryMetrics`. -/
structure MemoryMetrics where
  total : ℚ
  used : ℚ
  available : ℚ
  free : ℚ
  cached : ℚ
  buffered : ℚ
  inactive : ℚ
  slab_reclaimable : ℚ
  slab_unreclaimable : ℚ
  usagePercent : ℚ
deriving DecidableEq, Repr

/-- `DiskIOMetrics`. -/
structure DiskIOMetrics where
  device : String
  readBytes : ℚ
  writeBytes : ℚ
  readOps : ℚ
  writeOps : ℚ
  readTime : ℚ
  writeTime : ℚ
deriving DecidableEq, Repr

instance : Inhabited DiskIOMetrics := ⟨⟨"", 0, 0, 0, 0, 0, 0⟩⟩

/-- The inode sub-record of `FilesystemMetrics`. -/
structure InodeMetrics where
  total : ℚ
  used : ℚ
  free : ℚ
  usagePercent : ℚ
deriving DecidableEq, Repr

/-- `FilesystemMetrics`. -/
structure FilesystemMetrics where
  device : String
  filesystem : String
  mountpoint : String
  total : ℚ
  used : ℚ
  available : ℚ
  usagePercent : ℚ
  inodes : InodeMetrics
deriving DecidableEq, Repr

/-- `NetworkMetrics`. -/
structure NetworkMetrics where
  device : String
  rxBytes : ℚ
  txBytes : ℚ
  rxPackets : ℚ
  txPackets : ℚ
  rxErrors : ℚ
  txErrors : ℚ
  rxDropped : ℚ
  txDropped : ℚ
deriving DecidableEq, Repr

instance : Inhabited NetworkMetrics := ⟨⟨"", 0, 0, 0, 0, 0, 0, 0, 0⟩⟩

/-- `ProcessMetrics`. -/
structure ProcessMetrics where
  count : ℚ
  running : ℚ
  sleeping : ℚ
  stopped : ℚ
  zombie : ℚ
  totalThreads : ℚ
deriving DecidableEq, Repr

/-- `HostMetrics`, the per-tick snapshot. -/
structure HostMetrics where
  timestamp : ℕ
  host : HostConfig
  cpu : CpuMetrics
  load : LoadMetrics
  memory : MemoryMetrics
  diskio : List DiskIOMetrics
  filesystem : List FilesystemMetrics
  network : List NetworkMetrics
  process : ProcessMetrics
  counters : CounterState
deriving DecidableEq, Repr

/-- The five successive draws of the per-core generator
`seededRandom(hostConfig.name + timestamp.getTime() + core)`. -/
def coreDraws (name : String) (t core : ℕ) : ℚ × ℚ × ℚ × ℚ × ℚ :=
  let s0 := hashString (name ++ toString t ++ toString core)
  let (r1, s1) := randStep s0
  let (r2, s2) := randStep s1
  let (r3, s3) := randStep s2
  let (r4, s4) := randStep s3
  let (r5, _) := randStep s4
  (r1, r2, r3, r4, r5)

/-- The pre-clamp quantities of one core of `generateCpuMetrics`:
`(totalUsed, user, nice, system, wait)`. -/
def coreTotals (jsSin : ℚ → ℚ) (name : String) (t core : ℕ) : ℚ × ℚ × ℚ × ℚ × ℚ :=
  let baseLoad := getTimeBasedLoad jsSin (jsGetHours t)
  let (r1, r2, r3, r4, r5) := coreDraws name t core
  let coreVariation := (r1 - 0.5) * 30
  let coreLoad := max 5 (min 95 (baseLoad + coreVariation))
  let totalUsed := coreLoad
  let user := totalUsed * (0.5 + (r2 - 0.5) * 0.2)
  let nice := totalUsed * (0.05 + r3 * 0.05)
  let system := totalUsed * (0.2 + (r4 - 0.5) * 0.1)
  let wait := totalUsed * (0.05 + r5 * 0.05)
  (totalUsed, user, nice, system, wait)

/-- The unallocated share of one core's used CPU after the `user`, `nice`,
`system` and `wait` draws (`remaining` in `generateCpuMetrics`). -/
def coreRemaining (jsSin : ℚ → ℚ) (name : String) (t core : ℕ) : ℚ :=
  let (totalUsed, user, nice, system, wait) := coreTotals jsSin name t core
  totalUsed - user - nice - system - wait

/-- The per-core usage object literal of `generateCpuMetrics`, with its
`Math.max(0, ·)` clamps. -/
def mkCoreUsage (jsSin : ℚ → ℚ) (name : String) (t core : ℕ) : CoreUsage :=
  let (totalUsed, user, nice, system, wait) := coreTotals jsSin name t core
  let idle := 100 - totalUsed
  let remaining := totalUsed - user - nice - system - wait
  { core := core
    user := max 0 user
    nice := max 0 nice
    system := max 0 system
    idle := max 0 idle
    wait := max 0 wait
    interrupt := max 0 (remaining * 0.4)
    softirq := max 0 (remaining * 0.4)
    steal := max 0 (remaining * 0.2) }

/-- One step of the `totalAggregateUsage` accumulation loop of
`generateCpuMetrics`. -/
def aggStep (acc : CpuStates) (cu : CoreUsage) : CpuStates :=
  { user := acc.user + cu.user
    nice := acc.nice + cu.nice
    system := acc.system + cu.system
    idle := acc.idle + cu.idle
    wait := acc.wait + cu.wait
    interrupt := acc.interrupt + cu.interrupt
    softirq := acc.softirq + cu.softirq
    steal := acc.steal + cu.steal }

/-- The `totalAggregateUsage` accumulation loop of `generateCpuMetrics`. -/
def aggregateUsage (perCore : List CoreUsage) : CpuStates :=
  perCore.foldl aggStep ⟨0, 0, 0, 0, 0, 0, 0, 0⟩

/-- The value component of `generateCpuMetrics` (per-core breakdown and
its per-core average), which reads no mutable state. -/
def cpuValue (jsSin : ℚ → ℚ) (cfg : HostConfig) (t : ℕ) : CpuMetrics :=
  let perCoreUsage := (List.range cfg.vcpus).map (mkCoreUsage jsSin cfg.name t)
  let total := aggregateUsage perCoreUsage
  let n : ℚ := cfg.vcpus
  { usage :=
      { user := total.user / n
        nice := total.nice / n
        system := total.system / n
        idle := total.idle / n
        wait := total.wait / n
        interrupt := total.interrupt / n
        softirq := total.softirq / n
        steal := total.steal / n }
    perCoreUsage := perCoreUsage
    count := cfg.vcpus }

/-- The `Object.entries(coreUsage)` iteration of the counter-update loop of
`generateCpuMetrics`, skipping the `core` property (insertion order). -/
def coreStateEntries (cu : CoreUsage) : List (String × ℚ) :=
  [("user", cu.user), ("nice", cu.nice), ("system", cu.system), ("idle", cu.idle),
   ("wait", cu.wait), ("interrupt", cu.interrupt), ("softirq", cu.softirq),
   ("steal", cu.steal)]

/-- The cumulative `cpu_time_<core>_<state>` counter-update loop of
`generateCpuMetrics`: each state feeds `(percent / 100) * intervalSeconds`
into the ledger. -/
def cpuCounterUpdate (perCore : List CoreUsage) (intervalSeconds : ℚ)
    (counters : CounterState) : CounterState :=
  perCore.foldl
    (fun cs cu =>
      (coreStateEntries cu).foldl
        (fun cs' e =>
          let counterKey := "cpu_time_" ++ toString cu.core ++ "_" ++ e.1
          let incrementSeconds := e.2 / 100 * intervalSeconds
          setCounter cs' counterKey
            (incrementCounter (getCounter cs' counterKey) incrementSeconds))
        cs)
    counters

/-- The elapsed-seconds computation of `generateCpuMetrics`: time since the
entity's previous tick, defaulting to 60 on the very first measurement. -/
def intervalSecondsOf (prevTimestamp : Option ℕ) (t : ℕ) : ℚ :=
  match prevTimestamp with
  | some p => ((t : ℚ) - (p : ℚ)) / 1000
  | none => 60

/-- `MetricsGenerator.generateCpuMetrics`: the returned `CpuMetrics` value
together with the updated cumulative CPU-time counters. -/
def generateCpuMetrics (jsSin : ℚ → ℚ) (cfg : HostConfig) (t : ℕ)
    (counters : CounterState) (prevTimestamp : Option ℕ) :
    CpuMetrics × CounterState :=
  let cpu := cpuValue jsSin cfg t
  (cpu, cpuCounterUpdate cpu.perCoreUsage (intervalSecondsOf prevTimestamp t) counters)

/-- `MetricsGenerator.generateLoadMetrics`: load averages correlated with
CPU usage plus seeded jitter. -/
def generateLoadMetrics (cfg : HostConfig) (cpu : CpuMetrics) (t : ℕ) : LoadMetrics :=
  let cpuUsagePercent := 100 - cpu.usage.idle
  let loadFactor := cpuUsagePercent / 100
  let baseLoad := loadFactor * (cfg.vcpus : ℚ)
  let s0 := hashString (cfg.name ++ toString t ++ "load")
  let (r1, s1) := randStep s0
  let (r2, s2) := randStep s1
  let (r3, _) := randStep s2
  { load1m := max 0 (baseLoad + (r1 - 0.5) * 0.5)
    load5m := max 0 (baseLoad + (r2 - 0.5) * 0.3)
    load15m := max 0 (baseLoad + (r3 - 0.5) * 0.2) }

/-- `MetricsGenerator.generateMemoryMetrics`. -/
def generateMemoryMetrics (cfg : HostConfig) (t : ℕ) : MemoryMetrics :=
  let totalBytes := cfg.memoryGB * 1024 * 1024 * 1024
  let s0 := hashString (cfg.name ++ toString t ++ "memory")
  let (r1, s1) := randStep s0
  let (r2, s2) := randStep s1
  let (r3, s3) := randStep s2
  let (r4, s4) := randStep s3
  let (r5, s5) := randStep s4
  let (r6, _) := randStep s5
  let usagePercent := 40 + r1 * 40
  let used := jsFloor (totalBytes * (usagePercent / 100))
  let available := totalBytes - used
  let cached := jsFloor (available * (0.25 + r2 * 0.25))
  let buffered := jsFloor (available * (0.05 + r3 * 0.1))
  let inactive := jsFloor (available * (0.1 + r4 * 0.15))
  let slabR := jsFloor (available * (0.02 + r5 * 0.03))
  let slabU := jsFloor (available * (0.01 + r6 * 0.02))
  let free := available - cached - buffered - inactive - slabR - slabU
  { total := totalBytes
    used := used
    available := available
    free := max 0 free
    cached := cached
    buffered := buffered
    inactive := inactive
    slab_reclaimable := slabR
    slab_unreclaimable := slabU
    usagePercent := usagePercent }

/-- The six successive draws of the per-device generator
`seededRandom(hostConfig.name + timestamp.getTime() + deviceKey)` of
`generateDiskIOMetrics`. -/
def diskDraws (name : String) (t : ℕ) (device : String) : ℚ × ℚ × ℚ × ℚ × ℚ × ℚ :=
  let s0 := hashString (name ++ toString t ++ "diskio_" ++ device)
  let (r1, s1) := randStep s0
  let (r2, s2) := randStep s1
  let (r3, s3) := randStep s2
  let (r4, s4) := randStep s3
  let (r5, s5) := randStep s4
  let (r6, _) := randStep s5
  (r1, r2, r3, r4, r5, r6)

/-- The instantaneous read rate (bytes/second) drawn for one device. -/
def diskReadBytesRate (name : String) (t : ℕ) (device : String) : ℚ :=
  (diskDraws name t device).1 * 50 * 1024 * 1024

/-- The instantaneous write rate (bytes/second) drawn for one device. -/
def diskWriteBytesRate (name : String) (t : ℕ) (device : String) : ℚ :=
  (diskDraws name t device).2.1 * 20 * 1024 * 1024

/-- The instantaneous read-operations rate (ops/second) drawn for one
device. -/
def diskReadOpsRate (name : String) (t : ℕ) (device : String) : ℚ :=
  (diskDraws name t device).2.2.1 * 1000

/-- The instantaneous write-operations rate (ops/second) drawn for one
device. -/
def diskWriteOpsRate (name : String) (t : ℕ) (device : String) : ℚ :=
  (diskDraws name t device).2.2.2.1 * 500

/-- The body of the `hostConfig.disks.map` of `generateDiskIOMetrics`: the
four per-second rates are fed directly into the cumulative counters and
the document stores the counters' returned values. -/
def diskIOStep (name : String) (t : ℕ) (cs : CounterState) (disk : DiskConfig) :
    DiskIOMetrics × CounterState :=
  let deviceKey := "diskio_" ++ disk.device
  let (_, _, _, _, r5, r6) := diskDraws name t disk.device
  let readBytesKey := deviceKey ++ "_read_bytes"
  let writeBytesKey := deviceKey ++ "_write_bytes"
  let readOpsKey := deviceKey ++ "_read_ops"
  let writeOpsKey := deviceKey ++ "_write_ops"
  let cs1 := setCounter cs readBytesKey
    (incrementCounter (getCounter cs readBytesKey) (diskReadBytesRate name t disk.device))
  let cs2 := setCounter cs1 writeBytesKey
    (incrementCounter (getCounter cs1 writeBytesKey) (diskWriteBytesRate name t disk.device))
  let cs3 := setCounter cs2 readOpsKey
    (incrementCounter (getCounter cs2 readOpsKey) (diskReadOpsRate name t disk.device))
  let cs4 := setCounter cs3 writeOpsKey
    (incrementCounter (getCounter cs3 writeOpsKey) (diskWriteOpsRate name t disk.device))
  ({ device := disk.device
     readBytes := getCounter cs4 readBytesKey
     writeBytes := getCounter cs4 writeBytesKey
     readOps := getCounter cs4 readOpsKey
     writeOps := getCounter cs4 writeOpsKey
     readTime := jsFloor (r5 * 100)
     writeTime := jsFloor (r6 * 100) }, cs4)

/-- `MetricsGenerator.generateDiskIOMetrics`. -/
def generateDiskIOMetrics (cfg : HostConfig) (counters : CounterState) (t : ℕ) :
    List DiskIOMetrics × CounterState :=
  cfg.disks.foldl
    (fun acc disk =>
      let (d, cs') := diskIOStep cfg.name t acc.2 disk
      (acc.1 ++ [d], cs'))
    ([], counters)

/-- The body of the `hostConfig.disks.map` of `generateFilesystemMetrics`
(the single `filesystem`-salted generator is threaded across disks). -/
def filesystemStep (s : ℕ) (disk : DiskConfig) : FilesystemMetrics × ℕ :=
  let (r, s') := randStep s
  let usagePercent := 20 + r * 60
  let used := jsFloor (disk.totalBytes * (usagePercent / 100))
  let available := disk.totalBytes - used
  let totalInodes := jsFloor (disk.totalBytes / (4 * 1024))
  let usedInodes := jsFloor (totalInodes * (usagePercent / 100) * 0.1)
  ({ device := disk.device
     filesystem := disk.filesystem
     mountpoint := disk.mountpoint
     total := disk.totalBytes
     used := used
     available := available
     usagePercent := usagePercent
     inodes :=
       { total := totalInodes
         used := usedInodes
         free := totalInodes - usedInodes
         usagePercent := usedInodes / totalInodes * 100 } }, s')

/-- `MetricsGenerator.generateFilesystemMetrics`. -/
def generateFilesystemMetrics (cfg : HostConfig) (t : ℕ) : List FilesystemMetrics :=
  let s0 := hashString (cfg.name ++ toString t ++ "filesystem")
  (cfg.disks.foldl
    (fun acc disk =>
      let (fs, s') := filesystemStep acc.2 disk
      (acc.1 ++ [fs], s'))
    ([], s0)).1

/-- The three rate draws of the per-interface generator of
`generateNetworkMetrics`: receive bytes/s, transmit bytes/s and average
packet size. -/
def netDraws (name : String) (t : ℕ) (ifaceName : String) : ℚ × ℚ × ℚ × ℕ :=
  let s0 := hashString (name ++ toString t ++ ifaceName)
  let (r1, s1) := randStep s0
  let (r2, s2) := randStep s1
  let (r3, s3) := randStep s2
  (r1 * 10 * 1024 * 1024, r2 * 5 * 1024 * 1024, 1000 + r3 * 500, s3)

/-- The receive-bytes-per-second rate drawn for one interface. -/
def netRxBytesRate (name : String) (t : ℕ) (ifaceName : String) : ℚ :=
  (netDraws name t ifaceName).1

/-- The transmit-bytes-per-second rate drawn for one interface. -/
def netTxBytesRate (name : String) (t : ℕ) (ifaceName : String) : ℚ :=
  (netDraws name t ifaceName).2.1

/-- The body of the `hostConfig.networkInterfaces.map` of
`generateNetworkMetrics`: loopback interfaces report all zeroes; otherwise
the per-second rates are fed directly into the cumulative counters and the
document stores the counters' returned values. -/
def networkStep (name : String) (t : ℕ) (cs : CounterState) (iface : NetworkInterface) :
    NetworkMetrics × CounterState :=
  if iface.type = "loopback" then
    ({ device := iface.name, rxBytes := 0, txBytes := 0, rxPackets := 0, txPackets := 0,
       rxErrors := 0, txErrors := 0, rxDropped := 0, txDropped := 0 }, cs)
  else
    let (rxBytesPerSec, txBytesPerSec, avgPacketSize, s3) := netDraws name t iface.name
    let rxPacketsPerSec := rxBytesPerSec / avgPacketSize
    let txPacketsPerSec := txBytesPerSec / avgPacketSize
    let deviceKey := "network_" ++ iface.name
    let rxBytesKey := deviceKey ++ "_rx_bytes"
    let txBytesKey := deviceKey ++ "_tx_bytes"
    let rxPacketsKey := deviceKey ++ "_rx_packets"
    let txPacketsKey := deviceKey ++ "_tx_packets"
    let cs1 := setCounter cs rxBytesKey
      (incrementCounter (getCounter cs rxBytesKey) rxBytesPerSec)
    let cs2 := setCounter cs1 txBytesKey
      (incrementCounter (getCounter cs1 txBytesKey) txBytesPerSec)
    let cs3 := setCounter cs2 rxPacketsKey
      (incrementCounter (getCounter cs2 rxPacketsKey) rxPacketsPerSec)
    let cs4 := setCounter cs3 txPacketsKey
      (incrementCounter (getCounter cs3 txPacketsKey) txPacketsPerSec)
    let (r4, s4) := randStep s3
    let (r5, s5) := randStep s4
    let (r6, s6) := randStep s5
    let (r7, _) := randStep s6
    ({ device := iface.name
       rxBytes := getCounter cs4 rxBytesKey
       txBytes := getCounter cs4 txBytesKey
       rxPackets := getCounter cs4 rxPacketsKey
       txPackets := getCounter cs4 txPacketsKey
       rxErrors := jsFloor (r4 * 5)
       txErrors := jsFloor (r5 * 5)
       rxDropped := jsFloor (r6 * 2)
       txDropped := jsFloor (r7 * 2) }, cs4)

/-- `MetricsGenerator.generateNetworkMetrics`. -/
def generateNetworkMetrics (cfg : HostConfig) (counters : CounterState) (t : ℕ) :
    List NetworkMetrics × CounterState :=
  cfg.networkInterfaces.foldl
    (fun acc iface =>
      let (nm, cs') := networkStep cfg.name t acc.2 iface
      (acc.1 ++ [nm], cs'))
    ([], counters)

/-- `MetricsGenerator.generateProcessMetrics`. -/
def generateProcessMetrics (cfg : HostConfig) (t : ℕ) : ProcessMetrics :=
  let s0 := hashString (cfg.name ++ toString t ++ "process")
  let (r1, s1) := randStep s0
  let (r2, s2) := randStep s1
  let (r3, s3) := randStep s2
  let (r4, s4) := randStep s3
  let (r5, _) := randStep s4
  let baseProcesses : ℚ := 50 + (cfg.vcpus : ℚ) * 20
  let variation := jsFloor ((r1 - 0.5) * 20)
  let total := max 30 (baseProcesses + variation)
  let running := jsFloor (r2 * (cfg.vcpus : ℚ) * 2)
  let zombie := jsFloor (r3 * 3)
  let stopped := jsFloor (r4 * 2)
  let sleeping := total - running - zombie - stopped
  { count := total
    running := max 0 running
    sleeping := max 0 sleeping
    stopped := max 0 stopped
    zombie := max 0 zombie
    totalThreads := total + jsFloor (r5 * total * 0.5) }

/-- The mutable state of a `MetricsGenerator` instance: the per-host
cumulative counters and the per-host previous snapshot. -/
structure GenState where
  counters : List (String × CounterState)
  previousMetrics : List (String × HostMetrics)
deriving DecidableEq, Repr

/-- A fresh `MetricsGenerator` (as at process start). -/
def emptyGenState : GenState := ⟨[], []⟩

/-- Record read on a `Map<string, T>` modelled as an association list. -/
def mapLookup {α : Type} (m : List (String × α)) (k : String) : Option α :=
  (m.find? (fun p => p.1 = k)).map (fun p => p.2)

/-- Record write on a `Map<string, T>` modelled as an association list. -/
def mapInsert {α : Type} : List (String × α) → String → α → List (String × α)
  | [], k, v => [(k, v)]
  | (k', v') :: rest, k, v =>
    if k' = k then (k, v) :: rest else (k', v') :: mapInsert rest k v

/-- `MetricsGenerator.generateMetrics`: one tick of metric synthesis for a
host.  The counters object is shared (aliased) between the CPU, disk-IO
and network passes, so the updates are threaded in program order; the
snapshot's `counters` field holds the final record, and the snapshot is
stored as the host's previous metrics. -/
def generateMetrics (jsSin : ℚ → ℚ) (st : GenState) (cfg : HostConfig) (t : ℕ) :
    HostMetrics × GenState :=
  let hostKey := cfg.name
  let counters0 := (mapLookup st.counters hostKey).getD []
  let prevTimestamp := (mapLookup st.previousMetrics hostKey).map (fun m => m.timestamp)
  let cpuPair := generateCpuMetrics jsSin cfg t counters0 prevTimestamp
  let cpu := cpuPair.1
  let counters1 := cpuPair.2
  let load := generateLoadMetrics cfg cpu t
  let memory := generateMemoryMetrics cfg t
  let diskPair := generateDiskIOMetrics cfg counters1 t
  let diskio := diskPair.1
  let counters2 := diskPair.2
  let filesystem := generateFilesystemMetrics cfg t
  let netPair := generateNetworkMetrics cfg counters2 t
  let network := netPair.1
  let counters3 := netPair.2
  let process := generateProcessMetrics cfg t
  let metrics : HostMetrics :=
    { timestamp := t
      host := cfg
      cpu := cpu
      load := load
      memory := memory
      diskio := diskio
      filesystem := filesystem
      network := network
      process := process
      counters := counters3 }
  (metrics,
   { counters := mapInsert st.counters hostKey counters3
     previousMetrics := mapInsert st.previousMetrics hostKey metrics })

/-- The constant-zero model of `Math.sin` used for concrete evaluations;
every evaluated code path below applies `Math.sin` at `0` only, where the
IEEE-754 value is exactly `0`. -/
def jsSinZero : ℚ → ℚ := fun _ => 0

/-! ## Format renderers (load sections and image helpers) -/

/-- The `system.load` metricset document body built by
`ElasticFormatter.formatMetrics` (`src/formatters/elastic-formatter.ts`,
lines 179–205): raw 1/5/15-minute load averages, their per-core normalised
values, and the core count. -/
structure ElasticLoadMetricset where
  one : ℚ
  five : ℚ
  fifteen : ℚ
  normOne : ℚ
  normFive : ℚ
  normFifteen : ℚ
  cores : ℕ
deriving DecidableEq, Repr

/-- `ElasticFormatter.formatMetrics`, load metricset. -/
def elasticLoadMetricset (m : HostMetrics) : ElasticLoadMetricset :=
  { one := m.load.load1m
    five := m.load.load5m
    fifteen := m.load.load15m
    normOne := m.load.load1m / (m.cpu.count : ℚ)
    normFive := m.load.load5m / (m.cpu.count : ℚ)
    normFifteen := m.load.load15m / (m.cpu.count : ℚ)
    cores := m.cpu.count }

/-- One OTel metric document reduced to its metric name, numeric value and
unit. -/
structure OtelMetricDoc where
  metricName : String
  value : ℚ
  unit : String
deriving DecidableEq, Repr

/-- `OtelFormatter.formatMetrics`, load-average documents
(`src/formatters/otel-formatter.ts`, lines 144–180): three documents
carrying the raw 1/5/15-minute load averages with unit `1`; no normalised
load is emitted. -/
def otelLoadDocs (m : HostMetrics) : List OtelMetricDoc :=
  [{ metricName := "system.cpu.load_average.1m", value := m.load.load1m, unit := "1" },
   { metricName := "system.cpu.load_average.5m", value := m.load.load5m, unit := "1" },
   { metricName := "system.cpu.load_average.15m", value := m.load.load15m, unit := "1" }]

/-- `BaseFormatter.generateImageId` (`src/formatters/base-formatter.ts`,
lines 18–28).  The selection index is `Math.floor(Math.random() * n)`; the
`Math.random()` draw is made explicit as the `mathRandom` argument. -/
def generateImageId (provider : String) (mathRandom : ℚ) : String :=
  let providerImages :=
    if provider = "aws" then
      ["ami-0abcdef1234567890", "ami-0987654321fedcba0", "ami-0123456789abcdef0"]
    else if provider = "gcp" then
      ["ubuntu-2004-focal-v20231101", "ubuntu-1804-bionic-v20231024", "centos-7-v20231115"]
    else if provider = "azure" then
      ["/subscriptions/12345/resourceGroups/mygroup/providers/Microsoft.Compute/images/myimage",
       "/subscriptions/67890/resourceGroups/production/providers/Microsoft.Compute/images/ubuntu-20-04"]
    else
      ["ami-0abcdef1234567890", "ami-0987654321fedcba0", "ami-0123456789abcdef0"]
  providerImages.getD (⌊mathRandom * providerImages.length⌋.toNat) ""

/-- `BaseFormatter.generateImageName` (`src/formatters/base-formatter.ts`,
lines 30–42), with the `Math.random()` draw made explicit. -/
def generateImageName (provider : String) (mathRandom : ℚ) : String :=
  let providerNames :=
    if provider = "aws" then
      ["ubuntu/images/hvm-ssd/ubuntu-focal-20.04-amd64-server",
       "amazon-linux-2-kernel-5.10-x86_64-gp2",
       "centos-7-x86_64-hvm-ebs"]
    else if provider = "gcp" then
      ["ubuntu-2004-focal", "ubuntu-1804-bionic", "centos-7"]
    else if provider = "azure" then
      ["Canonical:0001-com-ubuntu-server-focal:20_04-lts-gen2",
       "OpenLogic:CentOS:7_9-gen2", "RedHat:RHEL:8-lvm-gen2"]
    else
      ["ubuntu/images/hvm-ssd/ubuntu-focal-20.04-amd64-server",
       "amazon-linux-2-kernel-5.10-x86_64-gp2",
       "centos-7-x86_64-hvm-ebs"]
  providerNames.getD (⌊mathRandom * providerNames.length⌋.toNat) ""

/-! ## Transform stage (`src/streams/metrics-transform-stream.ts`) -/

/-- The collaborators a `MetricsTransformStream` is constructed with;
components that can throw are modelled as `Except`-returning functions. -/
structure TransformDeps (Config Metrics Doc E : Type) where
  generateConfig : String → Except E Config
  generateTickMetrics : Config → ℕ → Except E Metrics
  formatTickMetrics : Metrics → Except E (List Doc)

/-- `MetricsTransformStream._transform` for one tick: resolve the config,
generate the snapshot, format it; any thrown exception is caught and
handed to the stream callback (`callback(error)`), otherwise the documents
are pushed and the callback is invoked without an error. -/
def transformOne {Config Metrics Doc E : Type} (g : TransformDeps Config Metrics Doc E)
    (item : String × ℕ) : Except E (List Doc) := do
  let config ← g.generateConfig item.1
  let metrics ← g.generateTickMetrics config item.2
  g.formatTickMetrics metrics

/-- Driving the transform stream over a finite tick sequence under Node
stream semantics: each tick is processed in order; `callback()` continues
with the next tick, while `callback(error)` puts the stream in its error
state, after which no further ticks are processed.  The result is the
documents pushed before the failure together with the terminating error,
if any. -/
def runTransform {Config Metrics Doc E : Type} (g : TransformDeps Config Metrics Doc E) :
    List (String × ℕ) → List Doc × Option E
  | [] => ([], none)
  | item :: rest =>
    match transformOne g item with
    | Except.error e => ([], some e)
    | Except.ok docs =>
      let (ds, r) := runTransform g rest
      (docs ++ ds, r)

/-! ## Backfill producer (`src/streams/backfill-stream.ts`) -/

/-- The instance state of a `BackfillStream`: virtual time, captured end
time, entity list, interval, and the round-robin entity index. -/
structure BackfillState where
  currentTime : ℕ
  endTime : ℕ
  entityIds : List String
  intervalMs : ℕ
  entityIndex : ℕ
deriving DecidableEq, Repr

/-- `BackfillStream._read`: push `null` (here `none`) once virtual time has
reached the captured end time; otherwise push the current
`(entityId, timestamp)` item and advance to the next entity, wrapping to
entity 0 and stepping virtual time by one interval after the last
entity. -/
def backfillRead (st : BackfillState) : Option (String × ℕ) × BackfillState :=
  if st.endTime ≤ st.currentTime then (none, st)
  else
    let item := (st.entityIds.getD st.entityIndex "", st.currentTime)
    let idx := st.entityIndex + 1
    if st.entityIds.length ≤ idx then
      (some item,
       { st with entityIndex := 0, currentTime := st.currentTime + st.intervalMs })
    else (some item, { st with entityIndex := idx })

/-- The item sequence produced by calling `_read` repeatedly (`fuel`
bounds the number of calls; a `push(null)` ends the stream). -/
def backfillRun : ℕ → BackfillState → List (String × ℕ)
  | 0, _ => []
  | fuel + 1, st =>
    match backfillRead st with
    | (none, _) => []
    | (some item, st') => item :: backfillRun fuel st'

/-- The number of virtual-time steps the backfill performs:
`⌈(endTime - startTime) / intervalMs⌉` in natural arithmetic. -/
def backfillTickCount (startTime endTime intervalMs : ℕ) : ℕ :=
  (endTime - startTime + intervalMs - 1) / intervalMs

/-- The documents a tick contributes when its transform succeeds (empty
for a failing tick). -/
def okDocs {Config Metrics Doc E : Type} (g : TransformDeps Config Metrics Doc E)
    (item : String × ℕ) : List Doc :=
  match transformOne g item with
  | Except.ok ds => ds
  | Except.error _ => []

/-- Concrete transform collaborators for evaluation: config derivation
throws for entity `host-bad` and succeeds otherwise, and each successful
tick renders the single document `7`. -/
def c5Deps : TransformDeps Unit Unit ℕ String :=
  { generateConfig := fun entityId =>
      if entityId = "host-bad" then Except.error "boom" else Except.ok ()
    generateTickMetrics := fun _ _ => Except.ok ()
    formatTickMetrics := fun _ => Except.ok [7] }

/-! ## A minimal host configuration for concrete counter-pipeline runs -/

/-- The single data disk of `cfgMin`. -/
def diskSda : DiskConfig :=
  { device := "sda", filesystem := "ext4", mountpoint := "/", totalBytes := 1073741824 }

/-- A minimal host configuration (one vCPU, one disk, no network
interfaces) used to run the metrics generator on a small concrete state. -/
def cfgMin : HostConfig :=
  { name := "h0"
    machineType := "t3.nano"
    vcpus := 1
    physicalCores := 1
    memoryGB := 1
    cloud :=
      { provider := "aws", region := "us-east-1", availabilityZone := "us-east-1a",
        instanceId := "i-0", instanceType := "t3.nano" }
    networkInterfaces := []
    disks := [diskSda] }

/-- The sum of the eight per-core CPU state percentages of one `CoreUsage`
record of `generateCpuMetrics`. -/
def sumCoreStates (cu : CoreUsage) : ℚ :=
  cu.user + cu.nice + cu.system + cu.idle + cu.wait + cu.interrupt +
    cu.softirq + cu.steal

/-! ## Auxiliary lemmas -/

lemma lcgNext_lt (s : ℕ) : lcgNext s < 4294967296 :=
  Nat.mod_lt _ (by norm_num)

lemma randValue_nonneg (s : ℕ) : 0 ≤ ((lcgNext s : ℕ) : ℚ) / 4294967296 := by
  positivity

lemma randValue_lt_one (s : ℕ) : ((lcgNext s : ℕ) : ℚ) / 4294967296 < 1 := by
  rw [div_lt_one (by norm_num)]
  exact_mod_cast lcgNext_lt s

lemma getCounter_setCounter_same (cs : CounterState) (k : String) (v : ℚ) :
    getCounter (setCounter cs k v) k = v := by
  induction cs with
  | nil => simp [setCounter, getCounter]
  | cons p rest ih =>
    by_cases h : p.1 = k
    · simp [setCounter, h, getCounter]
    · simpa [setCounter, h, getCounter] using ih

lemma getCounter_setCounter_ne (cs : CounterState) (k k' : String) (v : ℚ)
    (h : k' ≠ k) : getCounter (setCounter cs k v) k' = getCounter cs k' := by
  have hk : ¬k = k' := fun hk => h hk.symm
  induction cs with
  | nil => simp [setCounter, getCounter, hk]
  | cons p rest ih =>
    by_cases hp : p.1 = k
    · subst hp
      simp [setCounter, getCounter, hk]
    · by_cases hp' : p.1 = k'
      · simp [setCounter, hp, getCounter, hp', h]
      · simpa [setCounter, hp, getCounter, hp'] using ih

lemma append_ne_of_length_ne (a b c : String) (h : b.length ≠ c.length) :
    a ++ b ≠ a ++ c := by
  intro heq
  have := congrArg String.length heq
  simp only [String.length_append] at this
  omega

lemma incrementCounter_of_not_overflow (c d : ℚ) (h : c + d ≤ maxSafeInteger) :
    incrementCounter c d = jsFloor (c + d) := by
  simp [incrementCounter, not_lt.2 h]

lemma incrementCounter_of_overflow (c d : ℚ) (h : maxSafeInteger < c + d) :
    incrementCounter c d = d := by
  simp [incrementCounter, h]

lemma incrementCounter_nat_eq (c d : ℕ) (h : ((c : ℚ) + (d : ℚ)) ≤ maxSafeInteger) :
    incrementCounter (c : ℚ) (d : ℚ) = ((c + d : ℕ) : ℚ) := by
  rw [incrementCounter_of_not_overflow _ _ h]
  have hc : (c : ℚ) + (d : ℚ) = ((c + d : ℕ) : ℚ) := by push_cast; ring
  rw [hc, jsFloor, Int.floor_natCast]
  push_cast
  ring

lemma incrementCounter_mono_nat (c : ℕ) (d : ℚ) (h0 : 0 ≤ d)
    (h : (c : ℚ) + d ≤ maxSafeInteger) : (c : ℚ) ≤ incrementCounter (c : ℚ) d := by
  rw [incrementCounter_of_not_overflow _ _ h, jsFloor]
  have : ((c : ℤ) : ℚ) ≤ ((⌊(c : ℚ) + d⌋ : ℤ) : ℚ) := by
    exact_mod_cast Int.le_floor.2 (by push_cast; linarith)
  exact_mod_cast this

/-- Adjacent stored ledger values either do not decrease or witness an
overflow (the sum of the old value and the new value, which on overflow is
the raw increment, exceeds `Number.MAX_SAFE_INTEGER`). -/
lemma runLedger_chain (ds : List ℕ) : ∀ c : ℕ,
    List.Chain (fun a b => a ≤ b ∨ maxSafeInteger < a + b) (c : ℚ)
      (runLedger (c : ℚ) (ds.map (fun d => (d : ℚ)))) := by
  induction ds with
  | nil => intro c; simp [runLedger]
  | cons d ds ih =>
    intro c
    simp only [List.map_cons, runLedger]
    by_cases h : (c : ℚ) + (d : ℚ) ≤ maxSafeInteger
    · rw [incrementCounter_nat_eq c d h]
      exact List.Chain.cons (Or.inl (by exact_mod_cast Nat.le_add_right c d)) (ih (c + d))
    · rw [incrementCounter_of_overflow _ _ (not_le.1 h)]
      exact List.Chain.cons (Or.inr (not_le.1 h)) (ih d)

lemma lcgIter_succ_lt (n s : ℕ) : lcgIter (n + 1) s < 4294967296 := by
  rw [lcgIter, Function.iterate_succ_apply' lcgNext n s]
  exact lcgNext_lt _

lemma toInt32_bounds (x : ℤ) : -(2 ^ 31) ≤ toInt32 x ∧ toInt32 x < 2 ^ 31 := by
  unfold toInt32
  have h1 : 0 ≤ (x + 2 ^ 31) % 2 ^ 32 := Int.emod_nonneg _ (by norm_num)
  have h2 : (x + 2 ^ 31) % 2 ^ 32 < 2 ^ 32 := Int.emod_lt_of_pos _ (by norm_num)
  omega

lemma hashFold_bounds : ∀ (l : List Char) (h : ℤ), -(2 ^ 31) ≤ h → h ≤ 2 ^ 31 →
    -(2 ^ 31) ≤ l.foldl (fun h c => hashStep h c.toNat) h ∧
      l.foldl (fun h c => hashStep h c.toNat) h ≤ 2 ^ 31 := by
  intro l
  induction l with
  | nil => intro h h1 h2; exact ⟨h1, h2⟩
  | cons c l ih =>
    intro h _ _
    have hb := toInt32_bounds (toInt32 (h * 32) - h + c.toNat)
    exact ih (hashStep h c.toNat) hb.1 (le_of_lt hb.2)

lemma hashString_le (s : String) : hashString s ≤ 2 ^ 31 := by
  have hb := hashFold_bounds s.data 0 (by norm_num) (by norm_num)
  unfold hashString hashStringRaw
  omega


/-- C9.  The claim states that every format renderer is a pure function of
the snapshot.  The code contradicts this and its own repository
specification (`spec/deterministic-randomness.md`, which orders the
removal of exactly this `Math.random()` usage): the `host.image.id` and
`host.image.name` resource attributes emitted by the OTel renderer are
selected by `Math.random()` in `BaseFormatter.generateImageId` /
`generateImageName`, so two renders of the identical snapshot can produce
different documents.  Evaluated at provider `"aws"` with `Math.random()`
draws `0` and `1/2`, the selected image id and name differ. -/
theorem C9_code_bug :
    generateImageId "aws" 0 ≠ generateImageId "aws" (1 / 2) ∧
    generateImageName "aws" 0 ≠ generateImageName "aws" (1 / 2) := by
  have h1 : generateImageId "aws" 0 = "ami-0abcdef1234567890" := by
    rw [generateImageId]; norm_num
  have h2 : generateImageId "aws" (1 / 2) = "ami-0987654321fedcba0" := by
    rw [generateImageId]; norm_num
  have h3 : generateImageName "aws" 0 = "ubuntu/images/hvm-ssd/ubuntu-focal-20.04-amd64-server" := by
    rw [generateImageName]; norm_num
  have h4 : generateImageName "aws" (1 / 2) = "amazon-linux-2-kernel-5.10-x86_64-gp2" := by
    rw [generateImageName]; norm_num
  rw [h1, h2, h3, h4]
  constructor <;> simp

/-- C10.  Every value returned by the seeded generator lies in `[0, 1)`;
the values produced by repeatedly calling the closure follow the stream
`randStream`, a function of the current seed alone (the first call
returns `randStream seed 0` and the rest is the stream of the advanced
state), so generators built from equal seeds produce the identical
sequence; and `hashString` maps every string to a non-negative integer,
bounded by `2^31`, so every downstream draw is total and well-seeded. -/
theorem C10_rng_totality :
    (∀ seed n : ℕ, 0 ≤ randStream seed n ∧ randStream seed n < 1) ∧
    (∀ seed : ℕ, (randStep seed).1 = randStream seed 0 ∧
      ∀ n : ℕ, randStream seed (n + 1) = randStream (randStep seed).2 n) ∧
    (∀ s : String, hashString s = (hashStringRaw s).natAbs ∧ hashString s ≤ 2 ^ 31) := by
  refine ⟨fun seed n => ⟨?_, ?_⟩, fun seed => ⟨?_, fun n => ?_⟩,
    fun s => ⟨rfl, hashString_le s⟩⟩
  · unfold randStream; positivity
  · unfold randStream
    rw [div_lt_one (by norm_num)]
    exact_mod_cast lcgIter_succ_lt n seed
  · show ((lcgNext seed : ℕ) : ℚ) / 4294967296 = _
    rw [randStream, lcgIter, Function.iterate_one]
  · show randStream seed (n + 1) = randStream (lcgNext seed) n
    rw [randStream, randStream, lcgIter, lcgIter, Function.iterate_succ_apply]

/-- C1, counterexample.  The claim asserts that for every entity and
dimension key the ledger resets to the increment (never to zero) at the
overflow boundary, and in particular that a ledger holding
`MAX_SAFE_INTEGER - 5` receiving an increment of `20` returns `20`.  The
weather generator's ledger (`WeatherMetricsGenerator.incrementCounter`)
falsifies this: at that exact input it stores `0`, not `20`. -/
theorem C1_counterexample :
    getCounter (weatherIncrementCounter [("network.rx_bytes", maxSafeInteger - 5)]
      "network.rx_bytes" 20) "network.rx_bytes" = 0 ∧ (0 : ℚ) ≠ 20 := by
  constructor
  · rw [weatherIncrementCounter, getCounter_setCounter_same]
    rw [show getCounter [("network.rx_bytes", maxSafeInteger - 5)] "network.rx_bytes"
        = maxSafeInteger - 5 from rfl]
    rw [weatherIncrementValue]
    norm_num [maxSafeInteger]
  · norm_num

/-- C1, amended.  Neither ledger satisfies the claimed invariant in full.
The host ledger (`MetricsGenerator.incrementCounter`) does reset to the
increment itself at the overflow boundary — so Scenario B returns `20`,
not `0` and not `15` — and from an integer stored value a non-negative
non-overflowing increment never decreases it (over integer increment
sequences adjacent stored values either do not decrease or witness an
overflow).  But the overflow path skips the `Math.floor` applied on the
normal path, so an overflow stores a raw fractional increment and the
next floored, non-overflowing step strictly decreases the counter
(`MAX_SAFE_INTEGER + 0.9` stores `0.9`, then `+ 0.05` stores
`Math.floor(0.95) = 0`), a decrease away from any overflow boundary.
The weather generator's ledger resets to `0` on overflow, directly
falsifying Scenario B. -/
theorem C1_amended :
    (∀ (c : ℕ) (d : ℚ), 0 ≤ d → (c : ℚ) + d ≤ maxSafeInteger →
      (c : ℚ) ≤ incrementCounter (c : ℚ) d) ∧
    (∀ c d : ℚ, maxSafeInteger < c + d → incrementCounter c d = d) ∧
    (∀ (c : ℕ) (ds : List ℕ),
      List.Chain (fun a b => a ≤ b ∨ maxSafeInteger < a + b) (c : ℚ)
        (runLedger (c : ℚ) (ds.map (fun d => (d : ℚ))))) ∧
    incrementCounter (maxSafeInteger - 5) 20 = 20 ∧
    (incrementCounter (maxSafeInteger - 5) 20 ≠ 0 ∧
      incrementCounter (maxSafeInteger - 5) 20 ≠ 15) ∧
    (incrementCounter maxSafeInteger (9 / 10) = 9 / 10 ∧
      incrementCounter (9 / 10) (1 / 20) = 0 ∧
      (9 / 10 : ℚ) + 1 / 20 ≤ maxSafeInteger ∧
      incrementCounter (9 / 10) (1 / 20) < 9 / 10) ∧
    (∀ c d : ℚ, maxSafeInteger < c + d → weatherIncrementValue c d = 0) ∧
    weatherIncrementValue (maxSafeInteger - 5) 20 = 0 := by
  have hover : incrementCounter (maxSafeInteger - 5) 20 = 20 :=
    incrementCounter_of_overflow _ _ (by norm_num [maxSafeInteger])
  have hfrac1 : incrementCounter maxSafeInteger (9 / 10) = 9 / 10 :=
    incrementCounter_of_overflow _ _ (by norm_num [maxSafeInteger])
  have hfrac2 : incrementCounter (9 / 10) (1 / 20) = 0 := by
    rw [incrementCounter_of_not_overflow _ _ (by norm_num [maxSafeInteger])]
    rw [jsFloor]
    norm_num
  refine ⟨incrementCounter_mono_nat, incrementCounter_of_overflow,
    fun c ds => runLedger_chain ds c, hover, ⟨?_, ?_⟩,
    ⟨hfrac1, hfrac2, by norm_num [maxSafeInteger], ?_⟩,
    fun c d h => by simp only [weatherIncrementValue, if_pos h], ?_⟩
  · rw [hover]; norm_num [maxSafeInteger]
  · rw [hover]; norm_num [maxSafeInteger]
  · rw [hfrac2]; norm_num
  · rw [weatherIncrementValue]; norm_num [maxSafeInteger]

/-- Witness for `C1_amended`: its hypotheses are satisfiable; the monotone
step applies at stored value `3` with increment `2`. -/
theorem C1_amended_witness :
    (0 : ℚ) ≤ 2 ∧ ((3 : ℕ) : ℚ) + 2 ≤ maxSafeInteger ∧
      ((3 : ℕ) : ℚ) ≤ incrementCounter ((3 : ℕ) : ℚ) 2 :=
  ⟨by norm_num, by rw [maxSafeInteger]; norm_num,
    C1_amended.1 3 2 (by norm_num) (by rw [maxSafeInteger]; norm_num)⟩

/-- A concrete snapshot realising Scenario C: a 1-minute load value of
`1.25` on a 4-core entity (renderers are functions of the snapshot alone,
so the remaining fields are immaterial). -/
def snapshotScenarioC : HostMetrics :=
  { timestamp := 0
    host :=
      { name := "host-1", machineType := "m5.xlarge", vcpus := 4, physicalCores := 2,
        memoryGB := 16,
        cloud := { provider := "aws", region := "us-east-1",
                   availabilityZone := "us-east-1a", instanceId := "i-0",
                   instanceType := "m5.xlarge" },
        networkInterfaces := [], disks := [] }
    cpu := { usage := ⟨0, 0, 0, 0, 0, 0, 0, 0⟩, perCoreUsage := [], count := 4 }
    load := { load1m := 5 / 4, load5m := 5 / 4, load15m := 5 / 4 }
    memory := ⟨0, 0, 0, 0, 0, 0, 0, 0, 0, 0⟩
    diskio := []
    filesystem := []
    network := []
    process := ⟨0, 0, 0, 0, 0, 0⟩
    counters := [] }

/-- C2, counterexample.  The claim requires both active renderers to
report `0.3125` as the normalized per-core load for Scenario C.  On the
snapshot with 1-minute load `1.25` and 4 cores, the Elastic renderer does
report raw `1.25` and normalized `0.3125`, but the OTel renderer's
load-average documents carry only the raw values — no document of its
load section has the value `0.3125`, so both renderers do not report the
normalized load. -/
theorem C2_counterexample :
    (elasticLoadMetricset snapshotScenarioC).one = 5 / 4 ∧
    (elasticLoadMetricset snapshotScenarioC).normOne = 5 / 16 ∧
    (∀ d ∈ otelLoadDocs snapshotScenarioC, d.value = 5 / 4) ∧
    ¬(∃ d ∈ otelLoadDocs snapshotScenarioC, d.value = 5 / 16) := by
  refine ⟨rfl, ?_, ?_, ?_⟩
  · show (5 / 4 : ℚ) / ((4 : ℕ) : ℚ) = 5 / 16
    norm_num
  · intro d hd
    simp only [otelLoadDocs, snapshotScenarioC, List.mem_cons, List.not_mem_nil,
      or_false] at hd
    rcases hd with h | h | h <;> rw [h]
  · rintro ⟨d, hd, hv⟩
    simp only [otelLoadDocs, snapshotScenarioC, List.mem_cons, List.not_mem_nil,
      or_false] at hd
    rcases hd with h | h | h <;> rw [h] at hv <;> norm_num at hv

/-- C2, amended.  For every snapshot, the OTel renderer's three
load-average documents carry exactly the raw 1/5/15-minute values the
Elastic renderer reports, so the logically equivalent raw field agrees
across the two renderers; the Elastic renderer additionally reports the
per-core normalized values (`raw / cores`), which the OTel renderer does
not emit.  In Scenario C both renderers report raw `1.25` and the Elastic
renderer alone reports normalized `0.3125`. -/
theorem C2_amended :
    (∀ m : HostMetrics,
      (otelLoadDocs m).map (fun d => d.value) =
        [(elasticLoadMetricset m).one, (elasticLoadMetricset m).five,
         (elasticLoadMetricset m).fifteen]) ∧
    (∀ m : HostMetrics, m.cpu.count ≠ 0 →
      (elasticLoadMetricset m).normOne * (m.cpu.count : ℚ) = (elasticLoadMetricset m).one) ∧
    (∀ m : HostMetrics, m.load.load1m = 5 / 4 → m.cpu.count = 4 →
      ((otelLoadDocs m).map (fun d => d.value)).head? = some (5 / 4) ∧
      (elasticLoadMetricset m).one = 5 / 4 ∧
      (elasticLoadMetricset m).normOne = 5 / 16) := by
  refine ⟨fun m => by simp [otelLoadDocs, elasticLoadMetricset], fun m hm => ?_,
    fun m h1 h4 => ⟨by simp [otelLoadDocs, h1], by simp [elasticLoadMetricset, h1], ?_⟩⟩
  · have : ((m.cpu.count : ℚ)) ≠ 0 := Nat.cast_ne_zero.2 hm
    simp [elasticLoadMetricset, div_mul_cancel₀ _ this]
  · simp [elasticLoadMetricset, h1, h4]
    norm_num

/-- Witness for `C2_amended`: its hypotheses hold at the Scenario C
snapshot. -/
theorem C2_amended_witness :
    (snapshotScenarioC.cpu.count ≠ 0 ∧
      (elasticLoadMetricset snapshotScenarioC).normOne *
        (snapshotScenarioC.cpu.count : ℚ) = (elasticLoadMetricset snapshotScenarioC).one) ∧
    ((otelLoadDocs snapshotScenarioC).map (fun d => d.value)).head? = some (5 / 4) :=
  ⟨⟨by simp [snapshotScenarioC], C2_amended.2.1 snapshotScenarioC (by simp [snapshotScenarioC])⟩,
    (C2_amended.2.2 snapshotScenarioC rfl rfl).1⟩


/-- C5, counterexample.  The claim asserts that a per-tick generation
error is caught, logged and skipped, and that the pipeline continues with
subsequent ticks.  In the code, `MetricsTransformStream._transform`
catches the exception but hands it to the stream callback
(`callback(error)`), which destroys the stream: with a failing first tick
followed by a healthy one, no documents are produced at all and the error
terminates processing, instead of the claimed skip-and-continue outcome
(the healthy tick's document `7` with no error). -/
theorem C5_counterexample :
    runTransform c5Deps [("host-bad", 1000), ("host-good", 2000)] = ([], some "boom") ∧
    (([], some "boom") : List ℕ × Option String) ≠ ([7], none) := by
  constructor
  · rfl
  · simp

/-- C5, amended.  `_transform` does catch every per-tick exception, and a
run with no failing tick forwards each tick's documents in order; but a
failing tick reports its error through the stream callback, which ends
processing: the output is exactly the documents of the ticks before the
failure together with that error, and no later tick is processed. -/
theorem C5_amended {Config Metrics Doc E : Type}
    (g : TransformDeps Config Metrics Doc E) :
    (∀ items : List (String × ℕ),
      (∀ it ∈ items, ∃ ds, transformOne g it = Except.ok ds) →
      runTransform g items = (items.bind (okDocs g), none)) ∧
    (∀ (pre : List (String × ℕ)) (bad : String × ℕ) (rest : List (String × ℕ)) (e : E),
      (∀ it ∈ pre, ∃ ds, transformOne g it = Except.ok ds) →
      transformOne g bad = Except.error e →
      runTransform g (pre ++ bad :: rest) = (pre.bind (okDocs g), some e)) := by
  constructor
  · intro items
    induction items with
    | nil => intro _; rfl
    | cons it rest ih =>
      intro h
      obtain ⟨ds, hds⟩ := h it (List.mem_cons_self it rest)
      have hrest := ih (fun x hx => h x (List.mem_cons_of_mem it hx))
      rw [runTransform, hds, hrest]
      simp [okDocs, hds]
  · intro pre bad rest e hpre hbad
    induction pre with
    | nil =>
      rw [List.nil_append, runTransform, hbad]
      simp
    | cons p pre ih =>
      obtain ⟨ds, hds⟩ := hpre p (List.mem_cons_self p pre)
      have htail := ih (fun x hx => hpre x (List.mem_cons_of_mem p hx))
      rw [List.cons_append, runTransform, hds, htail]
      simp [okDocs, hds]

/-- Witness for `C5_amended`: at the concrete collaborators, a healthy
tick before a failing one yields exactly the healthy tick's documents and
the terminating error. -/
theorem C5_amended_witness :
    (∀ it ∈ [(("host-good" : String), (1000 : ℕ))], ∃ ds, transformOne c5Deps it = Except.ok ds) ∧
    transformOne c5Deps ("host-bad", 2000) = Except.error "boom" ∧
    runTransform c5Deps ([("host-good", 1000)] ++ ("host-bad", 2000) :: [("host-good", 3000)]) =
      ([("host-good", 1000)].bind (okDocs c5Deps), some "boom") := by
  refine ⟨?_, rfl, ?_⟩
  · intro it hit
    simp only [List.mem_singleton] at hit
    exact ⟨[7], by rw [hit]; rfl⟩
  · exact (C5_amended c5Deps).2 [("host-good", 1000)] ("host-bad", 2000) [("host-good", 3000)]
      "boom" (fun it hit => by
        simp only [List.mem_singleton] at hit
        exact ⟨[7], by rw [hit]; rfl⟩) rfl

/-- C8.  Entity config derivation is deterministic: `generateHost` derives
every field from draws of a generator seeded with `hashString(hostName)`
in a fixed order (`generateHostPure` is a function of the name alone), so
for any cache whose entries were produced by earlier calls, a call
returns exactly `generateHostPure hostName`, an immediately repeated call
returns the identical (cached) configuration, and the cache again holds
only derived configurations. -/
theorem C8_config_determinism (cache : List (String × HostConfig)) (hostName : String)
    (hwf : ∀ p ∈ cache, p.2 = generateHostPure p.1) :
    (generateHostCached cache hostName).1 = generateHostPure hostName ∧
    (generateHostCached (generateHostCached cache hostName).2 hostName).1 =
      (generateHostCached cache hostName).1 ∧
    ∀ p ∈ (generateHostCached cache hostName).2, p.2 = generateHostPure p.1 := by
  rcases hfind : cache.find? (fun p => p.1 = hostName) with _ | p
  · have h1 : generateHostCached cache hostName =
        (generateHostPure hostName, (hostName, generateHostPure hostName) :: cache) := by
      rw [generateHostCached, hfind]
    refine ⟨by rw [h1], ?_, ?_⟩
    · rw [h1, generateHostCached]
      simp
    · rw [h1]
      intro q hq
      rcases List.mem_cons.1 hq with h | h
      · rw [h]
      · exact hwf q h
  · have hp : p.1 = hostName := by simpa using List.find?_some hfind
    have hmem : p ∈ cache := List.mem_of_find?_eq_some hfind
    have h1 : generateHostCached cache hostName = (p.2, cache) := by
      rw [generateHostCached, hfind]
    refine ⟨?_, ?_, ?_⟩
    · rw [h1, hwf p hmem, hp]
    · rw [h1, generateHostCached, hfind]
    · rw [h1]; exact hwf

/-- Witness for `C8_config_determinism`: the empty cache of a fresh
process satisfies the cache invariant, and the first call for `host-1`
returns the derived configuration. -/
theorem C8_config_determinism_witness :
    (∀ p ∈ ([] : List (String × HostConfig)), p.2 = generateHostPure p.1) ∧
    (generateHostCached [] "host-1").1 = generateHostPure "host-1" :=
  ⟨by simp, (C8_config_determinism [] "host-1" (by simp)).1⟩

lemma backfillRun_done (fuel : ℕ) (st : BackfillState)
    (h : st.endTime ≤ st.currentTime) : backfillRun fuel st = [] := by
  cases fuel with
  | zero => rfl
  | succ f =>
    rw [backfillRun, backfillRead, if_pos h]

lemma backfillSweep (endT I : ℕ) (ids : List String) :
    ∀ (m idx fuel cur : ℕ), idx + (m + 1) = ids.length → m + 1 ≤ fuel →
      cur < endT →
      backfillRun fuel ⟨cur, endT, ids, I, idx⟩ =
        ((ids.drop idx).map (fun e => (e, cur))) ++
          backfillRun (fuel - (m + 1)) ⟨cur + I, endT, ids, I, 0⟩ := by
  intro m
  induction m with
  | zero =>
    intro idx fuel cur hlen hfuel hcur
    obtain ⟨f, rfl⟩ : ∃ f, fuel = f + 1 := ⟨fuel - 1, by omega⟩
    have hidx : idx < ids.length := by omega
    rw [backfillRun, backfillRead, if_neg (by simp; omega)]
    simp only [if_pos (show ids.length ≤ idx + 1 by omega)]
    rw [List.drop_eq_getElem_cons hidx, show idx + 1 = ids.length from by omega,
      List.drop_length]
    simp only [List.map_cons, List.map_nil, List.cons_append, List.nil_append,
      Nat.add_sub_cancel]
    rw [List.getD_eq_getElem ids "" hidx]
  | succ m ih =>
    intro idx fuel cur hlen hfuel hcur
    obtain ⟨f, rfl⟩ : ∃ f, fuel = f + 1 := ⟨fuel - 1, by omega⟩
    have hidx : idx < ids.length := by omega
    rw [backfillRun, backfillRead, if_neg (by simp; omega)]
    simp only [if_neg (show ¬ids.length ≤ idx + 1 by omega)]
    rw [ih (idx + 1) f cur (by omega) (by omega) hcur]
    rw [List.drop_eq_getElem_cons hidx]
    simp only [List.map_cons, List.cons_append]
    rw [List.getD_eq_getElem ids "" hidx,
      show f + 1 - (m + 1 + 1) = f - (m + 1) from by omega]

lemma backfillTickCount_zero_iff (T0 endT I : ℕ) (hI : 0 < I) :
    backfillTickCount T0 endT I = 0 ↔ endT ≤ T0 := by
  rw [backfillTickCount, Nat.div_eq_zero_iff hI]
  omega

lemma backfillTickCount_step (T0 endT I : ℕ) (hI : 0 < I) (hlt : T0 < endT) :
    backfillTickCount (T0 + I) endT I + 1 = backfillTickCount T0 endT I := by
  rw [backfillTickCount, backfillTickCount]
  rcases le_or_lt (endT - T0) I with hd | hd
  · have h1 : endT - (T0 + I) = 0 := by omega
    rw [h1]
    have h2 : (0 + I - 1) / I = 0 := Nat.div_eq_of_lt (by omega)
    have h3 : (endT - T0 + I - 1) / I = 1 := by
      apply Nat.div_eq_of_lt_le <;> omega
    omega
  · have h1 : endT - (T0 + I) + I - 1 = endT - T0 - 1 := by omega
    have h2 : endT - T0 + I - 1 = (endT - T0 - 1) + I := by omega
    rw [h1, h2, Nat.add_div_right _ hI]


lemma flatMap_map_eq {α β γ : Type} (l : List α) (g : α → β) (f : β → List γ) :
    (l.map g).flatMap f = l.flatMap (fun x => f (g x)) := by
  induction l with
  | nil => rfl
  | cons a l ih => simp only [List.map_cons, List.flatMap_cons, ih]

lemma flatMap_singleton_eq {α β : Type} (l : List α) (f : α → β) :
    l.flatMap (fun a => [f a]) = l.map f := by
  induction l with
  | nil => rfl
  | cons a l ih => simp only [List.map_cons, List.flatMap_cons, ih, List.singleton_append]

lemma filter_flatMap_eq {α β : Type} (l : List α) (f : α → List β) (p : β → Bool) :
    (l.flatMap f).filter p = l.flatMap (fun a => (f a).filter p) := by
  induction l with
  | nil => rfl
  | cons a l ih => simp [List.filter_append, ih]

lemma filter_fst_map_pair (l : List String) (e : String) (t : ℕ) (hnd : l.Nodup)
    (he : e ∈ l) :
    (l.map (fun x => (x, t))).filter (fun p => p.1 = e) = [(e, t)] := by
  induction l with
  | nil => simp at he
  | cons a l ih =>
    rw [List.map_cons]
    rcases List.mem_cons.1 he with h | h
    · subst h
      rw [List.filter_cons_of_pos (by simp)]
      have hz : (l.map (fun x => (x, t))).filter (fun p => p.1 = e) = [] := by
        rw [List.filter_eq_nil_iff]
        intro b hb
        rw [List.mem_map] at hb
        obtain ⟨x, hx, rfl⟩ := hb
        simp only [decide_eq_true_eq]
        intro hxe
        exact (List.nodup_cons.1 hnd).1 (hxe ▸ hx)
      rw [hz]
    · rw [List.filter_cons_of_neg (by
        simp only [decide_eq_true_eq]
        intro hae
        exact (List.nodup_cons.1 hnd).1 (hae ▸ h))]
      exact ih (List.nodup_cons.1 hnd).2 h

lemma backfillRun_spec (endT I : ℕ) (ids : List String) (hI : 0 < I)
    (hne : ids ≠ []) : ∀ (k T0 fuel : ℕ),
    backfillTickCount T0 endT I = k → k * ids.length ≤ fuel →
    backfillRun fuel ⟨T0, endT, ids, I, 0⟩ =
      (List.range k).flatMap (fun j => ids.map (fun e => (e, T0 + j * I))) := by
  intro k
  induction k with
  | zero =>
    intro T0 fuel hk _
    rw [backfillRun_done fuel _ ((backfillTickCount_zero_iff T0 endT I hI).1 hk)]
    simp
  | succ k ih =>
    intro T0 fuel hk hfuel
    have hlt : T0 < endT := by
      by_contra h
      rw [(backfillTickCount_zero_iff T0 endT I hI).2 (by omega)] at hk
      omega
    obtain ⟨m, hm⟩ : ∃ m, ids.length = m + 1 := by
      rcases ids with _ | ⟨a, l⟩
      · exact absurd rfl hne
      · exact ⟨l.length, rfl⟩
    have hfuel1 : m + 1 ≤ fuel := by
      rw [Nat.succ_mul, hm] at hfuel
      omega
    rw [backfillSweep endT I ids m 0 fuel T0 (by omega) hfuel1 hlt]
    have hk' : backfillTickCount (T0 + I) endT I = k := by
      have := backfillTickCount_step T0 endT I hI hlt
      omega
    rw [ih (T0 + I) (fuel - (m + 1)) hk' (by
      rw [Nat.succ_mul, hm] at hfuel
      rw [hm]
      omega)]
    rw [List.range_succ_eq_map, List.flatMap_cons, flatMap_map_eq]
    simp only [List.drop_zero, Nat.zero_mul, Nat.add_zero]
    congr 1
    apply List.flatMap_congr
    intro j _
    have h5 : T0 + I + j * I = T0 + (j + 1) * I := by
      rw [Nat.succ_mul]
      omega
    rw [h5]

/-- C7.  With backfill start `T0`, captured end time `endT`, interval
`I > 0` and a non-empty duplicate-free entity list, driving
`BackfillStream._read` (with any sufficient read budget) emits exactly the
entity-major sequence of one tick per entity per virtual time
`T0, T0 + I, …`: per entity exactly
`backfillTickCount T0 endT I = ⌈(endT - T0) / I⌉` ticks with strictly
increasing timestamps, all strictly below `endT`; the tick count is the
least `m` with `endT ≤ T0 + m * I`; and at the state reached after the
last sweep `_read` pushes `null`, ending the stream. -/
theorem C7_backfill_bounded (T0 endT I : ℕ) (ids : List String) (fuel : ℕ)
    (hI : 0 < I) (hne : ids ≠ []) (hnd : ids.Nodup)
    (hfuel : backfillTickCount T0 endT I * ids.length ≤ fuel) :
    backfillRun fuel ⟨T0, endT, ids, I, 0⟩ =
      (List.range (backfillTickCount T0 endT I)).flatMap
        (fun j => ids.map (fun e => (e, T0 + j * I))) ∧
    (∀ e ∈ ids,
      (backfillRun fuel ⟨T0, endT, ids, I, 0⟩).filter (fun p => p.1 = e) =
        (List.range (backfillTickCount T0 endT I)).map (fun j => (e, T0 + j * I))) ∧
    (∀ e ∈ ids,
      ((backfillRun fuel ⟨T0, endT, ids, I, 0⟩).filter (fun p => p.1 = e)).length =
        backfillTickCount T0 endT I ∧
      List.Pairwise (fun p q => p.2 < q.2)
        ((backfillRun fuel ⟨T0, endT, ids, I, 0⟩).filter (fun p => p.1 = e))) ∧
    (∀ p ∈ backfillRun fuel ⟨T0, endT, ids, I, 0⟩, p.2 < endT) ∧
    (endT ≤ T0 + backfillTickCount T0 endT I * I ∧
      ∀ m : ℕ, endT ≤ T0 + m * I → backfillTickCount T0 endT I ≤ m) ∧
    backfillRead ⟨T0 + backfillTickCount T0 endT I * I, endT, ids, I, 0⟩ =
      (none, ⟨T0 + backfillTickCount T0 endT I * I, endT, ids, I, 0⟩) := by
  have hout := backfillRun_spec endT I ids hI hne (backfillTickCount T0 endT I) T0 fuel
    rfl hfuel
  have hlow : backfillTickCount T0 endT I * I ≤ endT - T0 + I - 1 := by
    rw [backfillTickCount]
    exact Nat.div_mul_le_self _ _
  have hhigh : endT - T0 ≤ backfillTickCount T0 endT I * I := by
    rw [backfillTickCount, Nat.mul_comm]
    have hdm := Nat.div_add_mod (endT - T0 + I - 1) I
    have hmod := Nat.mod_lt (endT - T0 + I - 1) hI
    omega
  have hfilter : ∀ e ∈ ids,
      ((List.range (backfillTickCount T0 endT I)).flatMap
        (fun j => ids.map (fun e => (e, T0 + j * I)))).filter (fun p => p.1 = e) =
        (List.range (backfillTickCount T0 endT I)).map (fun j => (e, T0 + j * I)) := by
    intro e he
    rw [filter_flatMap_eq]
    have hblock : ∀ j : ℕ,
        ((ids.map (fun x => (x, T0 + j * I))).filter (fun p => p.1 = e)) =
          [(e, T0 + j * I)] := fun j => filter_fst_map_pair ids e (T0 + j * I) hnd he
    rw [List.flatMap_congr (fun j _ => hblock j), flatMap_singleton_eq]
  refine ⟨hout, ?_, ?_, ?_, ⟨by omega, ?_⟩, ?_⟩
  · intro e he
    rw [hout]
    exact hfilter e he
  · intro e he
    rw [hout, hfilter e he]
    constructor
    · rw [List.length_map, List.length_range]
    · refine List.Pairwise.map _ ?_ (List.pairwise_lt_range _)
      intro a b hab
      simp only
      have := (Nat.mul_lt_mul_right hI).2 hab
      omega
  · intro p hp
    rw [hout, List.mem_flatMap] at hp
    obtain ⟨j, hj, hpj⟩ := hp
    rw [List.mem_map] at hpj
    obtain ⟨e, _, rfl⟩ := hpj
    rw [List.mem_range] at hj
    have h2 : (j + 1) * I ≤ backfillTickCount T0 endT I * I :=
      Nat.mul_le_mul_right I hj
    rw [Nat.succ_mul] at h2
    simp only
    omega
  · intro m hm
    by_contra hlt
    push_neg at hlt
    have h2 : (m + 1) * I ≤ backfillTickCount T0 endT I * I :=
      Nat.mul_le_mul_right I hlt
    rw [Nat.succ_mul] at h2
    omega
  · rw [backfillRead, if_pos (by simp only []; omega)]

/-- Witness for `C7_backfill_bounded`: Scenario A — interval `10s`,
backfill from 30 seconds before the captured end time, one entity —
yields exactly 3 ticks, 10 seconds apart, then the stream ends. -/
theorem C7_backfill_bounded_witness :
    (0 < 10000 ∧ (["host-1"] : List String) ≠ [] ∧
      (["host-1"] : List String).Nodup ∧
      backfillTickCount 0 30000 10000 * (["host-1"] : List String).length ≤ 3) ∧
    backfillRun 3 ⟨0, 30000, ["host-1"], 10000, 0⟩ =
      (List.range (backfillTickCount 0 30000 10000)).flatMap
        (fun j => (["host-1"] : List String).map (fun e => (e, 0 + j * 10000))) ∧
    backfillRun 3 ⟨0, 30000, ["host-1"], 10000, 0⟩ =
      [("host-1", 0), ("host-1", 10000), ("host-1", 20000)] := by
  refine ⟨⟨by decide, by decide, by decide, by decide⟩, ?_, by decide⟩
  exact (C7_backfill_bounded 0 30000 10000 ["host-1"] 3 (by decide) (by decide)
    (by decide) (by decide)).1

/-! ## Counter-key bookkeeping lemmas -/

lemma string_append_right_ne (a b c : String) (h : b ≠ c) : a ++ b ≠ a ++ c := by
  intro he
  apply h
  have hd := congrArg String.data he
  rw [String.data_append, String.data_append] at hd
  have h2 := congrArg String.mk (List.append_cancel_left hd)
  simpa using h2

lemma ne_cpu_key (k a b : String) (hk : k.data.head? ≠ some 'c') :
    k ≠ "cpu_time_" ++ a ++ "_" ++ b := by
  intro he
  apply hk
  rw [he]
  rw [String.data_append, String.data_append, String.data_append]
  rfl

/-- The CPU-time counter loop of `generateCpuMetrics` writes only
`cpu_time_`-prefixed keys, so it leaves every key that does not start with
the character `'c'` unchanged. -/
lemma getCounter_cpuCounterUpdate (perCore : List CoreUsage) (e : ℚ)
    (cs : CounterState) (k : String) (hk : k.data.head? ≠ some 'c') :
    getCounter (cpuCounterUpdate perCore e cs) k = getCounter cs k := by
  induction perCore generalizing cs with
  | nil => rfl
  | cons cu rest ih =>
    rw [cpuCounterUpdate, List.foldl_cons, ← cpuCounterUpdate]
    rw [ih]
    simp only [coreStateEntries, List.foldl]
    iterate 8 rw [getCounter_setCounter_ne _ _ _ _ (ne_cpu_key _ _ _ hk)]

/-- `generateDiskIOMetrics` feeds the raw per-second read rate (with no
elapsed-time factor) into the cumulative counter and stores the ledger's
return. -/
lemma diskIOStep_readBytes (name : String) (t : ℕ) (cs : CounterState)
    (disk : DiskConfig) :
    (diskIOStep name t cs disk).1.readBytes
      = incrementCounter (getCounter cs ("diskio_" ++ disk.device ++ "_read_bytes"))
          (diskReadBytesRate name t disk.device) := by
  rcases hdd : diskDraws name t disk.device with ⟨r1, r2, r3, r4, r5, r6⟩
  simp only [diskIOStep, hdd]
  rw [getCounter_setCounter_ne _ _ _ _ (append_ne_of_length_ne _ _ _ (by decide)),
      getCounter_setCounter_ne _ _ _ _ (append_ne_of_length_ne _ _ _ (by decide)),
      getCounter_setCounter_ne _ _ _ _ (append_ne_of_length_ne _ _ _ (by decide)),
      getCounter_setCounter_same]

/-- The stored counters record of `diskIOStep` holds, under the read-bytes
key, the ledger's return on the raw per-second read rate. -/
lemma diskIOStep_counters_readBytes (name : String) (t : ℕ) (cs : CounterState)
    (disk : DiskConfig) :
    getCounter (diskIOStep name t cs disk).2 ("diskio_" ++ disk.device ++ "_read_bytes")
      = incrementCounter (getCounter cs ("diskio_" ++ disk.device ++ "_read_bytes"))
          (diskReadBytesRate name t disk.device) := by
  have h : getCounter (diskIOStep name t cs disk).2
      ("diskio_" ++ disk.device ++ "_read_bytes")
      = (diskIOStep name t cs disk).1.readBytes := rfl
  rw [h, diskIOStep_readBytes]

/-- `diskIOStep_readBytes` specialised to `cfgMin`'s disk, with the counter
key in literal form. -/
lemma diskIOStep_readBytes_sda (cs : CounterState) :
    (diskIOStep "h0" 0 cs diskSda).1.readBytes
      = incrementCounter (getCounter cs "diskio_sda_read_bytes")
          (diskReadBytesRate "h0" 0 "sda") := by
  have h := diskIOStep_readBytes "h0" 0 cs diskSda
  rw [show ("diskio_" ++ diskSda.device ++ "_read_bytes") = "diskio_sda_read_bytes" from rfl,
      show diskSda.device = "sda" from rfl] at h
  exact h

/-- `diskIOStep_counters_readBytes` specialised to `cfgMin`'s disk. -/
lemma diskIOStep_counters_sda (cs : CounterState) :
    getCounter (diskIOStep "h0" 0 cs diskSda).2 "diskio_sda_read_bytes"
      = incrementCounter (getCounter cs "diskio_sda_read_bytes")
          (diskReadBytesRate "h0" 0 "sda") := by
  have h := diskIOStep_counters_readBytes "h0" 0 cs diskSda
  rw [show ("diskio_" ++ diskSda.device ++ "_read_bytes") = "diskio_sda_read_bytes" from rfl,
      show diskSda.device = "sda" from rfl] at h
  exact h

/-- `generateNetworkMetrics` feeds the raw per-second receive rate (with no
elapsed-time factor) into the cumulative counter and stores the ledger's
return. -/
lemma networkStep_rxBytes (name : String) (t : ℕ) (cs : CounterState)
    (iface : NetworkInterface) (h : ¬iface.type = "loopback") :
    (networkStep name t cs iface).1.rxBytes
      = incrementCounter (getCounter cs ("network_" ++ iface.name ++ "_rx_bytes"))
          (netRxBytesRate name t iface.name) := by
  simp only [networkStep, if_neg h, netRxBytesRate, netDraws, randStep]
  rw [getCounter_setCounter_ne _ _ _ _ (string_append_right_ne _ _ _ (by decide)),
      getCounter_setCounter_ne _ _ _ _ (string_append_right_ne _ _ _ (by decide)),
      getCounter_setCounter_ne _ _ _ _ (string_append_right_ne _ _ _ (by decide)),
      getCounter_setCounter_same]

/-! ## Concrete rate draws for `cfgMin` at `t = 0` -/

set_option maxRecDepth 8000 in
/-- The read-bytes/second rate drawn for `cfgMin`'s disk at `t = 0`. -/
lemma diskReadBytesRate_h0 :
    diskReadBytesRate "h0" 0 "sda" = 33415738875 / 2048 := by
  have hh : hashString ("h0" ++ toString 0 ++ "diskio_" ++ "sda") = 33242148 := by decide
  have hl : lcgNext 33242148 = 1336629555 := by decide
  simp only [diskReadBytesRate, diskDraws, randStep, hh, hl]
  norm_num

set_option maxRecDepth 8000 in
/-- The receive-bytes/second rate drawn for interface `eth0` at `t = 0`. -/
lemma netRxBytesRate_h0 :
    netRxBytesRate "h0" 0 "eth0" = 1102458175 / 512 := by
  have hh : hashString ("h0" ++ toString 0 ++ "eth0") = 767245793 := by decide
  have hl : lcgNext 767245793 = 881966540 := by decide
  simp only [netRxBytesRate, netDraws, randStep, hh, hl]
  norm_num

/-- The ledger's return on the first feed of `cfgMin`'s disk read rate. -/
lemma incrementCounter_rate1 :
    incrementCounter 0 (33415738875 / 2048) = 16316278 := by
  rw [incrementCounter_of_not_overflow _ _ (by norm_num [maxSafeInteger])]
  rw [jsFloor]
  norm_num

/-- The ledger's return on the second feed of `cfgMin`'s disk read rate. -/
lemma incrementCounter_rate2 :
    incrementCounter 16316278 (33415738875 / 2048) = 32632556 := by
  rw [incrementCounter_of_not_overflow _ _ (by norm_num [maxSafeInteger])]
  rw [jsFloor]
  norm_num

/-! ## The first two ticks of `generateMetrics` on `cfgMin` -/

/-- Structural form of the disk-IO section of the first tick. -/
lemma tick1_diskio_eq :
    (generateMetrics jsSinZero emptyGenState cfgMin 0).1.diskio
      = [(diskIOStep "h0" 0
            (cpuCounterUpdate ((List.range 1).map (mkCoreUsage jsSinZero "h0" 0)) 60 [])
            diskSda).1] := rfl

/-- On the first tick the stored disk read-bytes value is the ledger's
return on the raw per-second rate (starting from an empty ledger). -/
lemma tick1_readBytes :
    ((generateMetrics jsSinZero emptyGenState cfgMin 0).1.diskio.getD 0 default).readBytes
      = incrementCounter 0 (diskReadBytesRate "h0" 0 "sda") := by
  rw [tick1_diskio_eq, List.getD_cons_zero, diskIOStep_readBytes_sda,
      getCounter_cpuCounterUpdate _ _ _ _ (by decide)]
  rfl

/-- Structural form of the disk-IO section of the second tick with
identical arguments (the state returned by the first tick is passed back
in). -/
lemma tick2_diskio_eq :
    (generateMetrics jsSinZero (generateMetrics jsSinZero emptyGenState cfgMin 0).2
        cfgMin 0).1.diskio
      = [(diskIOStep "h0" 0
            (cpuCounterUpdate ((List.range 1).map (mkCoreUsage jsSinZero "h0" 0))
              ((((0 : ℕ) : ℚ) - ((0 : ℕ) : ℚ)) / 1000)
              (diskIOStep "h0" 0
                (cpuCounterUpdate ((List.range 1).map (mkCoreUsage jsSinZero "h0" 0)) 60 [])
                diskSda).2)
            diskSda).1] := rfl

/-- On the second tick with identical arguments the stored disk read-bytes
value is the ledger's second return: the raw rate is fed again on top of
the mutated counter. -/
lemma tick2_readBytes :
    ((generateMetrics jsSinZero (generateMetrics jsSinZero emptyGenState cfgMin 0).2
        cfgMin 0).1.diskio.getD 0 default).readBytes
      = incrementCounter (incrementCounter 0 (diskReadBytesRate "h0" 0 "sda"))
          (diskReadBytesRate "h0" 0 "sda") := by
  rw [tick2_diskio_eq, List.getD_cons_zero, diskIOStep_readBytes_sda,
      getCounter_cpuCounterUpdate _ _ _ _ (by decide),
      diskIOStep_counters_sda,
      getCounter_cpuCounterUpdate _ _ _ _ (by decide)]
  rfl

/-- **C3 (counterexample).** Calling `MetricsGenerator.generateMetrics`
twice with identical arguments (same host configuration `cfgMin`, same
timestamp `0`) in the same process does not yield identical snapshots: the
first call mutates the per-host cumulative counters, so the second call's
disk-IO section reports the ledger's second return (`32632556` read bytes
instead of `16316278`). -/
theorem C3_counterexample :
    (generateMetrics jsSinZero (generateMetrics jsSinZero emptyGenState cfgMin 0).2
        cfgMin 0).1
      ≠ (generateMetrics jsSinZero emptyGenState cfgMin 0).1 := by
  intro h
  have hp : ((generateMetrics jsSinZero (generateMetrics jsSinZero emptyGenState cfgMin 0).2
          cfgMin 0).1.diskio.getD 0 default).readBytes
      = ((generateMetrics jsSinZero emptyGenState cfgMin 0).1.diskio.getD 0 default).readBytes :=
    congrArg (fun m : HostMetrics => (m.diskio.getD 0 default).readBytes) h
  rw [tick1_readBytes, tick2_readBytes, diskReadBytesRate_h0] at hp
  rw [incrementCounter_rate1] at hp
  rw [incrementCounter_rate2] at hp
  exact absurd hp (by norm_num)

/-- The CPU section of a snapshot depends only on the configuration and
the timestamp, not on the generator state. -/
lemma generateMetrics_cpu (jsSin : ℚ → ℚ) (st : GenState) (cfg : HostConfig) (t : ℕ) :
    (generateMetrics jsSin st cfg t).1.cpu = cpuValue jsSin cfg t := rfl

/-- The load section of a snapshot depends only on the configuration and
the timestamp. -/
lemma generateMetrics_load (jsSin : ℚ → ℚ) (st : GenState) (cfg : HostConfig) (t : ℕ) :
    (generateMetrics jsSin st cfg t).1.load
      = generateLoadMetrics cfg (cpuValue jsSin cfg t) t := rfl

/-- The memory section of a snapshot depends only on the configuration and
the timestamp. -/
lemma generateMetrics_memory (jsSin : ℚ → ℚ) (st : GenState) (cfg : HostConfig) (t : ℕ) :
    (generateMetrics jsSin st cfg t).1.memory = generateMemoryMetrics cfg t := rfl

/-- The filesystem section of a snapshot depends only on the configuration
and the timestamp. -/
lemma generateMetrics_filesystem (jsSin : ℚ → ℚ) (st : GenState) (cfg : HostConfig)
    (t : ℕ) :
    (generateMetrics jsSin st cfg t).1.filesystem = generateFilesystemMetrics cfg t := rfl

/-- The process section of a snapshot depends only on the configuration
and the timestamp. -/
lemma generateMetrics_process (jsSin : ℚ → ℚ) (st : GenState) (cfg : HostConfig)
    (t : ℕ) :
    (generateMetrics jsSin st cfg t).1.process = generateProcessMetrics cfg t := rfl

/-- The timestamp of a snapshot is the tick's timestamp argument. -/
lemma generateMetrics_timestamp (jsSin : ℚ → ℚ) (st : GenState) (cfg : HostConfig)
    (t : ℕ) :
    (generateMetrics jsSin st cfg t).1.timestamp = t := rfl

/-- The host section of a snapshot is the configuration argument itself. -/
lemma generateMetrics_host (jsSin : ℚ → ℚ) (st : GenState) (cfg : HostConfig)
    (t : ℕ) :
    (generateMetrics jsSin st cfg t).1.host = cfg := rfl

/-- **C3 (amended).** The gauge portions of a snapshot are repeat-call
deterministic: two successive `generateMetrics` calls with identical
arguments agree on the CPU, load, memory, filesystem and process sections
and on the timestamp and host configuration.  (Only the counter-backed
disk-IO/network sections and the counters record differ, as the
counterexample shows.) -/
theorem C3_amended (jsSin : ℚ → ℚ) (st : GenState) (cfg : HostConfig) (t : ℕ) :
    (generateMetrics jsSin (generateMetrics jsSin st cfg t).2 cfg t).1.cpu
        = (generateMetrics jsSin st cfg t).1.cpu ∧
    (generateMetrics jsSin (generateMetrics jsSin st cfg t).2 cfg t).1.load
        = (generateMetrics jsSin st cfg t).1.load ∧
    (generateMetrics jsSin (generateMetrics jsSin st cfg t).2 cfg t).1.memory
        = (generateMetrics jsSin st cfg t).1.memory ∧
    (generateMetrics jsSin (generateMetrics jsSin st cfg t).2 cfg t).1.filesystem
        = (generateMetrics jsSin st cfg t).1.filesystem ∧
    (generateMetrics jsSin (generateMetrics jsSin st cfg t).2 cfg t).1.process
        = (generateMetrics jsSin st cfg t).1.process ∧
    (generateMetrics jsSin (generateMetrics jsSin st cfg t).2 cfg t).1.timestamp
        = (generateMetrics jsSin st cfg t).1.timestamp ∧
    (generateMetrics jsSin (generateMetrics jsSin st cfg t).2 cfg t).1.host
        = (generateMetrics jsSin st cfg t).1.host :=
  ⟨by rw [generateMetrics_cpu, generateMetrics_cpu],
   by rw [generateMetrics_load, generateMetrics_load],
   by rw [generateMetrics_memory, generateMetrics_memory],
   by rw [generateMetrics_filesystem, generateMetrics_filesystem],
   by rw [generateMetrics_process, generateMetrics_process],
   by rw [generateMetrics_timestamp, generateMetrics_timestamp],
   by rw [generateMetrics_host, generateMetrics_host]⟩

/-- **C4 (counterexample).** On the very first tick the elapsed-seconds
default is `60`, yet the stored disk read-bytes value is the ledger's
return on the raw per-second rate alone, which differs from the ledger's
return on rate × elapsed; likewise for the network receive-bytes counter.
So the disk and network counter feeds are not rate × elapsed. -/
theorem C4_counterexample :
    intervalSecondsOf none 0 = 60 ∧
    ((generateMetrics jsSinZero emptyGenState cfgMin 0).1.diskio.getD 0 default).readBytes
      = incrementCounter 0 (diskReadBytesRate "h0" 0 "sda") ∧
    incrementCounter 0 (diskReadBytesRate "h0" 0 "sda")
      ≠ incrementCounter 0 (diskReadBytesRate "h0" 0 "sda" * 60) ∧
    (networkStep "h0" 0 [] { name := "eth0", type := "ethernet", mtu := 1500 }).1.rxBytes
      = incrementCounter 0 (netRxBytesRate "h0" 0 "eth0") ∧
    incrementCounter 0 (netRxBytesRate "h0" 0 "eth0")
      ≠ incrementCounter 0 (netRxBytesRate "h0" 0 "eth0" * 60) := by
  refine ⟨rfl, tick1_readBytes, ?_, ?_, ?_⟩
  · rw [diskReadBytesRate_h0, incrementCounter_rate1,
        incrementCounter_of_not_overflow _ _ (by norm_num [maxSafeInteger])]
    rw [jsFloor]
    norm_num
  · rw [networkStep_rxBytes _ _ _ _ (by decide)]
    rfl
  · rw [netRxBytesRate_h0,
        incrementCounter_of_not_overflow _ _ (by norm_num [maxSafeInteger]),
        incrementCounter_of_not_overflow _ _ (by norm_num [maxSafeInteger])]
    rw [jsFloor, jsFloor]
    norm_num

/-- For one core, the CPU counter loop of `generateCpuMetrics` stores,
under each of the eight `cpu_time_<core>_<state>` keys, the ledger's
return on the increment `(state percent / 100) * elapsedSeconds`. -/
lemma cpuCounterUpdate_states (cu : CoreUsage) (elapsed : ℚ) (cs : CounterState) :
    getCounter (cpuCounterUpdate [cu] elapsed cs)
        ("cpu_time_" ++ toString cu.core ++ "_" ++ "user")
      = incrementCounter
          (getCounter cs ("cpu_time_" ++ toString cu.core ++ "_" ++ "user"))
          (cu.user / 100 * elapsed) ∧
    getCounter (cpuCounterUpdate [cu] elapsed cs)
        ("cpu_time_" ++ toString cu.core ++ "_" ++ "nice")
      = incrementCounter
          (getCounter cs ("cpu_time_" ++ toString cu.core ++ "_" ++ "nice"))
          (cu.nice / 100 * elapsed) ∧
    getCounter (cpuCounterUpdate [cu] elapsed cs)
        ("cpu_time_" ++ toString cu.core ++ "_" ++ "system")
      = incrementCounter
          (getCounter cs ("cpu_time_" ++ toString cu.core ++ "_" ++ "system"))
          (cu.system / 100 * elapsed) ∧
    getCounter (cpuCounterUpdate [cu] elapsed cs)
        ("cpu_time_" ++ toString cu.core ++ "_" ++ "idle")
      = incrementCounter
          (getCounter cs ("cpu_time_" ++ toString cu.core ++ "_" ++ "idle"))
          (cu.idle / 100 * elapsed) ∧
    getCounter (cpuCounterUpdate [cu] elapsed cs)
        ("cpu_time_" ++ toString cu.core ++ "_" ++ "wait")
      = incrementCounter
          (getCounter cs ("cpu_time_" ++ toString cu.core ++ "_" ++ "wait"))
          (cu.wait / 100 * elapsed) ∧
    getCounter (cpuCounterUpdate [cu] elapsed cs)
        ("cpu_time_" ++ toString cu.core ++ "_" ++ "interrupt")
      = incrementCounter
          (getCounter cs ("cpu_time_" ++ toString cu.core ++ "_" ++ "interrupt"))
          (cu.interrupt / 100 * elapsed) ∧
    getCounter (cpuCounterUpdate [cu] elapsed cs)
        ("cpu_time_" ++ toString cu.core ++ "_" ++ "softirq")
      = incrementCounter
          (getCounter cs ("cpu_time_" ++ toString cu.core ++ "_" ++ "softirq"))
          (cu.softirq / 100 * elapsed) ∧
    getCounter (cpuCounterUpdate [cu] elapsed cs)
        ("cpu_time_" ++ toString cu.core ++ "_" ++ "steal")
      = incrementCounter
          (getCounter cs ("cpu_time_" ++ toString cu.core ++ "_" ++ "steal"))
          (cu.steal / 100 * elapsed) := by
  refine ⟨?_, ?_, ?_, ?_, ?_, ?_, ?_, ?_⟩
  all_goals simp only [cpuCounterUpdate, coreStateEntries, List.foldl]
  · iterate 7 rw [getCounter_setCounter_ne _ _ _ _ (string_append_right_ne _ _ _ (by decide))]
    rw [getCounter_setCounter_same]
  · iterate 6 rw [getCounter_setCounter_ne _ _ _ _ (string_append_right_ne _ _ _ (by decide))]
    rw [getCounter_setCounter_same]
    iterate 1 rw [getCounter_setCounter_ne _ _ _ _ (string_append_right_ne _ _ _ (by decide))]
  · iterate 5 rw [getCounter_setCounter_ne _ _ _ _ (string_append_right_ne _ _ _ (by decide))]
    rw [getCounter_setCounter_same]
    iterate 2 rw [getCounter_setCounter_ne _ _ _ _ (string_append_right_ne _ _ _ (by decide))]
  · iterate 4 rw [getCounter_setCounter_ne _ _ _ _ (string_append_right_ne _ _ _ (by decide))]
    rw [getCounter_setCounter_same]
    iterate 3 rw [getCounter_setCounter_ne _ _ _ _ (string_append_right_ne _ _ _ (by decide))]
  · iterate 3 rw [getCounter_setCounter_ne _ _ _ _ (string_append_right_ne _ _ _ (by decide))]
    rw [getCounter_setCounter_same]
    iterate 4 rw [getCounter_setCounter_ne _ _ _ _ (string_append_right_ne _ _ _ (by decide))]
  · iterate 2 rw [getCounter_setCounter_ne _ _ _ _ (string_append_right_ne _ _ _ (by decide))]
    rw [getCounter_setCounter_same]
    iterate 5 rw [getCounter_setCounter_ne _ _ _ _ (string_append_right_ne _ _ _ (by decide))]
  · iterate 1 rw [getCounter_setCounter_ne _ _ _ _ (string_append_right_ne _ _ _ (by decide))]
    rw [getCounter_setCounter_same]
    iterate 6 rw [getCounter_setCounter_ne _ _ _ _ (string_append_right_ne _ _ _ (by decide))]
  · rw [getCounter_setCounter_same]
    iterate 7 rw [getCounter_setCounter_ne _ _ _ _ (string_append_right_ne _ _ _ (by decide))]

/-- **C4 (amended).** Only the CPU pass integrates over elapsed time: each
core state feeds `(percent / 100) * elapsedSeconds` into the ledger.  The
disk-IO and network passes feed the raw per-second rate itself, with no
elapsed-time factor, and the snapshot stores the ledger's returned
cumulative value (the disk read-bytes field literally is the stored
counter). -/
theorem C4_amended :
    (∀ (cu : CoreUsage) (elapsed : ℚ) (cs : CounterState),
        getCounter (cpuCounterUpdate [cu] elapsed cs)
            ("cpu_time_" ++ toString cu.core ++ "_" ++ "user")
          = incrementCounter
              (getCounter cs ("cpu_time_" ++ toString cu.core ++ "_" ++ "user"))
              (cu.user / 100 * elapsed) ∧
        getCounter (cpuCounterUpdate [cu] elapsed cs)
            ("cpu_time_" ++ toString cu.core ++ "_" ++ "nice")
          = incrementCounter
              (getCounter cs ("cpu_time_" ++ toString cu.core ++ "_" ++ "nice"))
              (cu.nice / 100 * elapsed) ∧
        getCounter (cpuCounterUpdate [cu] elapsed cs)
            ("cpu_time_" ++ toString cu.core ++ "_" ++ "system")
          = incrementCounter
              (getCounter cs ("cpu_time_" ++ toString cu.core ++ "_" ++ "system"))
              (cu.system / 100 * elapsed) ∧
        getCounter (cpuCounterUpdate [cu] elapsed cs)
            ("cpu_time_" ++ toString cu.core ++ "_" ++ "idle")
          = incrementCounter
              (getCounter cs ("cpu_time_" ++ toString cu.core ++ "_" ++ "idle"))
              (cu.idle / 100 * elapsed) ∧
        getCounter (cpuCounterUpdate [cu] elapsed cs)
            ("cpu_time_" ++ toString cu.core ++ "_" ++ "wait")
          = incrementCounter
              (getCounter cs ("cpu_time_" ++ toString cu.core ++ "_" ++ "wait"))
              (cu.wait / 100 * elapsed) ∧
        getCounter (cpuCounterUpdate [cu] elapsed cs)
            ("cpu_time_" ++ toString cu.core ++ "_" ++ "interrupt")
          = incrementCounter
              (getCounter cs ("cpu_time_" ++ toString cu.core ++ "_" ++ "interrupt"))
              (cu.interrupt / 100 * elapsed) ∧
        getCounter (cpuCounterUpdate [cu] elapsed cs)
            ("cpu_time_" ++ toString cu.core ++ "_" ++ "softirq")
          = incrementCounter
              (getCounter cs ("cpu_time_" ++ toString cu.core ++ "_" ++ "softirq"))
              (cu.softirq / 100 * elapsed) ∧
        getCounter (cpuCounterUpdate [cu] elapsed cs)
            ("cpu_time_" ++ toString cu.core ++ "_" ++ "steal")
          = incrementCounter
              (getCounter cs ("cpu_time_" ++ toString cu.core ++ "_" ++ "steal"))
              (cu.steal / 100 * elapsed)) ∧
    (∀ (name : String) (t : ℕ) (cs : CounterState) (disk : DiskConfig),
        (diskIOStep name t cs disk).1.readBytes
          = incrementCounter
              (getCounter cs ("diskio_" ++ disk.device ++ "_read_bytes"))
              (diskReadBytesRate name t disk.device) ∧
        (diskIOStep name t cs disk).1.readBytes
          = getCounter (diskIOStep name t cs disk).2
              ("diskio_" ++ disk.device ++ "_read_bytes")) ∧
    (∀ (name : String) (t : ℕ) (cs : CounterState) (iface : NetworkInterface),
        iface.type ≠ "loopback" →
        (networkStep name t cs iface).1.rxBytes
          = incrementCounter
              (getCounter cs ("network_" ++ iface.name ++ "_rx_bytes"))
              (netRxBytesRate name t iface.name)) := by
  exact ⟨fun cu elapsed cs => cpuCounterUpdate_states cu elapsed cs,
    fun name t cs disk => ⟨diskIOStep_readBytes name t cs disk, rfl⟩,
    fun name t cs iface h => networkStep_rxBytes name t cs iface h⟩

/-- Witness for C4_amended: the network conjunct applied to a concrete
non-loopback interface on an empty ledger. -/
theorem C4_amended_witness :
    (networkStep "h0" 0 [] { name := "eth0", type := "ethernet", mtu := 1500 }).1.rxBytes
      = incrementCounter
          (getCounter [] ("network_" ++ "eth0" ++ "_rx_bytes"))
          (netRxBytesRate "h0" 0 "eth0") :=
  C4_amended.2.2 "h0" 0 [] { name := "eth0", type := "ethernet", mtu := 1500 } (by decide)

/-! ## Per-core CPU state sums and aggregate means -/

/-- Clamp algebra of one core's eight state values: with the idle share and
the four non-negative draws, the `Math.max(0, _)` clamps make the sum
`100 - min 0 remaining` (the three remaining-share states split `remaining`
as `0.4 + 0.4 + 0.2`). -/
lemma max_clamp_sum (T u n sy w : ℚ) (hT95 : T ≤ 95)
    (hu : 0 ≤ u) (hn : 0 ≤ n) (hsy : 0 ≤ sy) (hw : 0 ≤ w) :
    max 0 u + max 0 n + max 0 sy + max 0 (100 - T) + max 0 w +
      max 0 ((T - u - n - sy - w) * 0.4) + max 0 ((T - u - n - sy - w) * 0.4) +
      max 0 ((T - u - n - sy - w) * 0.2)
      = 100 - min 0 (T - u - n - sy - w) := by
  have h100 : (0 : ℚ) ≤ 100 - T := by linarith
  rw [max_eq_right hu, max_eq_right hn, max_eq_right hsy, max_eq_right h100,
      max_eq_right hw]
  rcases le_or_lt 0 (T - u - n - sy - w) with h | h
  · rw [max_eq_right (by linarith), max_eq_right (by linarith), min_eq_left h]
    ring
  · rw [max_eq_left (by nlinarith), max_eq_left (by nlinarith), min_eq_right h.le]
    ring

/-- The eight state values of one per-core usage record of
`generateCpuMetrics` sum to `100 - min 0 remaining`: exactly `100` when the
remaining share is non-negative, and strictly more when the four draws
over-allocate. -/
lemma sum_mkCoreUsage (jsSin : ℚ → ℚ) (name : String) (t core : ℕ) :
    sumCoreStates (mkCoreUsage jsSin name t core)
      = 100 - min 0 (coreRemaining jsSin name t core) := by
  have hr2 := randValue_nonneg (lcgNext (hashString (name ++ toString t ++ toString core)))
  have hr3 := randValue_nonneg
    (lcgNext (lcgNext (hashString (name ++ toString t ++ toString core))))
  have hr4 := randValue_nonneg
    (lcgNext (lcgNext (lcgNext (hashString (name ++ toString t ++ toString core)))))
  have hr5 := randValue_nonneg
    (lcgNext (lcgNext (lcgNext (lcgNext (hashString (name ++ toString t ++ toString core))))))
  simp only [sumCoreStates, mkCoreUsage, coreRemaining, coreTotals, coreDraws, randStep]
  exact max_clamp_sum _ _ _ _ _
    (max_le (by norm_num) (min_le_left _ _))
    (mul_nonneg (le_trans (by norm_num) (le_max_left _ _)) (by linarith))
    (mul_nonneg (le_trans (by norm_num) (le_max_left _ _)) (by linarith))
    (mul_nonneg (le_trans (by norm_num) (le_max_left _ _)) (by linarith))
    (mul_nonneg (le_trans (by norm_num) (le_max_left _ _)) (by linarith))

/-- The `totalAggregateUsage` fold accumulates, per state, the sum of the
per-core values. -/
lemma aggregate_fold (l : List CoreUsage) (acc : CpuStates) :
    (l.foldl aggStep acc).user = acc.user + (l.map (fun cu => cu.user)).sum ∧
    (l.foldl aggStep acc).nice = acc.nice + (l.map (fun cu => cu.nice)).sum ∧
    (l.foldl aggStep acc).system = acc.system + (l.map (fun cu => cu.system)).sum ∧
    (l.foldl aggStep acc).idle = acc.idle + (l.map (fun cu => cu.idle)).sum ∧
    (l.foldl aggStep acc).wait = acc.wait + (l.map (fun cu => cu.wait)).sum ∧
    (l.foldl aggStep acc).interrupt
      = acc.interrupt + (l.map (fun cu => cu.interrupt)).sum ∧
    (l.foldl aggStep acc).softirq = acc.softirq + (l.map (fun cu => cu.softirq)).sum ∧
    (l.foldl aggStep acc).steal = acc.steal + (l.map (fun cu => cu.steal)).sum := by
  induction l generalizing acc with
  | nil => simp
  | cons cu rest ih =>
    obtain ⟨h1, h2, h3, h4, h5, h6, h7, h8⟩ := ih (aggStep acc cu)
    simp only [List.foldl_cons, List.map_cons, List.sum_cons]
    exact ⟨by rw [h1]; simp only [aggStep]; ring,
           by rw [h2]; simp only [aggStep]; ring,
           by rw [h3]; simp only [aggStep]; ring,
           by rw [h4]; simp only [aggStep]; ring,
           by rw [h5]; simp only [aggStep]; ring,
           by rw [h6]; simp only [aggStep]; ring,
           by rw [h7]; simp only [aggStep]; ring,
           by rw [h8]; simp only [aggStep]; ring⟩

/-- Division by the (possibly zero) core count cancels against
multiplication whenever a zero core count forces a zero sum. -/
lemma div_mul_cast_eq (s : ℚ) (n : ℕ) (h : n = 0 → s = 0) :
    s / (n : ℚ) * (n : ℚ) = s := by
  rcases Nat.eq_zero_or_pos n with h0 | hpos
  · subst h0
    simp [h rfl]
  · rw [div_mul_cancel₀]
    exact_mod_cast hpos.ne'

set_option maxRecDepth 8000 in
/-- **C6 (counterexample).** In the snapshot generated for `cfgMin` at
timestamp `286` the single core's eight state values do not sum to `100`:
the four sub-state draws over-allocate (`remaining < 0`), the clamps floor
the three remaining-share states at `0`, and the sum comes out
`≈ 100.294`. -/
theorem C6_counterexample :
    sumCoreStates
        (((generateMetrics jsSinZero emptyGenState cfgMin 286).1.cpu.perCoreUsage).getD
          0 default)
      ≠ 100 := by
  have hred : ((generateMetrics jsSinZero emptyGenState cfgMin 286).1.cpu.perCoreUsage).getD
        0 default
      = mkCoreUsage jsSinZero "h0" 286 0 := rfl
  rw [hred, sum_mkCoreUsage]
  have hh : hashString ("h0" ++ toString 286 ++ toString 0) = 1271661496 := by decide
  have hl1 : lcgNext 1271661496 = 3158209463 := by decide
  have hl2 : lcgNext 3158209463 = 4204051882 := by decide
  have hl3 : lcgNext 4204051882 = 3207090433 := by decide
  have hl4 : lcgNext 3207090433 = 3940185708 := by decide
  have hl5 : lcgNext 3940185708 = 3309436635 := by decide
  have hrem : coreRemaining jsSinZero "h0" 286 0
      = -(2720011705651152915 / 9223372036854775808) := by
    simp only [coreRemaining, coreTotals, coreDraws, randStep, hh, hl1, hl2, hl3, hl4,
      hl5, getTimeBasedLoad, jsGetHours, jsSinZero]
    norm_num [min_def, max_def]
  rw [hrem]
  norm_num [min_def]

/-- **C6 (amended).** Each per-core breakdown's eight state values sum to
`100 - min 0 remaining`: exactly `100` whenever the four sub-state draws
leave a non-negative remaining share, always at least `100`, and strictly
above `100` when the draws over-allocate (the `Math.max(0, _)` clamps
floor the remaining-share states at `0` but never rescale the others).
The aggregate usage is exactly the arithmetic mean of the per-core values
for every state. -/
theorem C6_amended :
    (∀ (jsSin : ℚ → ℚ) (name : String) (t core : ℕ),
        sumCoreStates (mkCoreUsage jsSin name t core)
          = 100 - min 0 (coreRemaining jsSin name t core) ∧
        100 ≤ sumCoreStates (mkCoreUsage jsSin name t core) ∧
        (0 ≤ coreRemaining jsSin name t core →
          sumCoreStates (mkCoreUsage jsSin name t core) = 100)) ∧
    (∀ (jsSin : ℚ → ℚ) (cfg : HostConfig) (t : ℕ),
        (cpuValue jsSin cfg t).usage.user * (cfg.vcpus : ℚ)
          = (((cpuValue jsSin cfg t).perCoreUsage).map (fun cu => cu.user)).sum ∧
        (cpuValue jsSin cfg t).usage.nice * (cfg.vcpus : ℚ)
          = (((cpuValue jsSin cfg t).perCoreUsage).map (fun cu => cu.nice)).sum ∧
        (cpuValue jsSin cfg t).usage.system * (cfg.vcpus : ℚ)
          = (((cpuValue jsSin cfg t).perCoreUsage).map (fun cu => cu.system)).sum ∧
        (cpuValue jsSin cfg t).usage.idle * (cfg.vcpus : ℚ)
          = (((cpuValue jsSin cfg t).perCoreUsage).map (fun cu => cu.idle)).sum ∧
        (cpuValue jsSin cfg t).usage.wait * (cfg.vcpus : ℚ)
          = (((cpuValue jsSin cfg t).perCoreUsage).map (fun cu => cu.wait)).sum ∧
        (cpuValue jsSin cfg t).usage.interrupt * (cfg.vcpus : ℚ)
          = (((cpuValue jsSin cfg t).perCoreUsage).map (fun cu => cu.interrupt)).sum ∧
        (cpuValue jsSin cfg t).usage.softirq * (cfg.vcpus : ℚ)
          = (((cpuValue jsSin cfg t).perCoreUsage).map (fun cu => cu.softirq)).sum ∧
        (cpuValue jsSin cfg t).usage.steal * (cfg.vcpus : ℚ)
          = (((cpuValue jsSin cfg t).perCoreUsage).map (fun cu => cu.steal)).sum) := by
  constructor
  · intro jsSin name t core
    refine ⟨sum_mkCoreUsage jsSin name t core, ?_, ?_⟩
    · rw [sum_mkCoreUsage]
      have hm := min_le_left (0 : ℚ) (coreRemaining jsSin name t core)
      linarith
    · intro h
      rw [sum_mkCoreUsage, min_eq_left h]
      ring
  · intro jsSin cfg t
    obtain ⟨h1, h2, h3, h4, h5, h6, h7, h8⟩ :=
      aggregate_fold ((List.range cfg.vcpus).map (mkCoreUsage jsSin cfg.name t))
        ⟨0, 0, 0, 0, 0, 0, 0, 0⟩
    simp only [zero_add] at h1 h2 h3 h4 h5 h6 h7 h8
    simp only [cpuValue, aggregateUsage]
    exact ⟨by rw [h1]; exact div_mul_cast_eq _ _ (fun h0 => by rw [h0]; rfl),
           by rw [h2]; exact div_mul_cast_eq _ _ (fun h0 => by rw [h0]; rfl),
           by rw [h3]; exact div_mul_cast_eq _ _ (fun h0 => by rw [h0]; rfl),
           by rw [h4]; exact div_mul_cast_eq _ _ (fun h0 => by rw [h0]; rfl),
           by rw [h5]; exact div_mul_cast_eq _ _ (fun h0 => by rw [h0]; rfl),
           by rw [h6]; exact div_mul_cast_eq _ _ (fun h0 => by rw [h0]; rfl),
           by rw [h7]; exact div_mul_cast_eq _ _ (fun h0 => by rw [h0]; rfl),
           by rw [h8]; exact div_mul_cast_eq _ _ (fun h0 => by rw [h0]; rfl)⟩

set_option maxRecDepth 8000 in
/-- Witness for `C6_amended`: the sums-to-100 implication applies at a
concrete core whose remaining share is non-negative. -/
theorem C6_amended_witness :
    sumCoreStates (mkCoreUsage jsSinZero "h" 0 0) = 100 := by
  apply (C6_amended.1 jsSinZero "h" 0 0).2.2
  have hh : hashString ("h" ++ toString 0 ++ toString 0) = 101480 := by decide
  have hl1 : lcgNext 101480 = 2426176679 := by decide
  have hl2 : lcgNext 2426176679 = 3851106778 := by decide
  have hl3 : lcgNext 3851106778 = 64470897 := by decide
  have hl4 : lcgNext 64470897 = 380875292 := by decide
  have hl5 : lcgNext 380875292 = 1631725259 := by decide
  simp only [coreRemaining, coreTotals, coreDraws, randStep, hh, hl1, hl2, hl3, hl4,
    hl5, getTimeBasedLoad, jsGetHours, jsSinZero]
  norm_num [min_def, max_def]
